import Mathlib

/-!
Suggested-action lifecycle of the Gaprio backend.

A shallow embedding of the action store (`models/suggestedAction.model.js`), the
channel registry (`models/monitoredChannel.model.js`), the monitoring service
(`services/monitoring.service.js`) and the review handlers of
`controllers/monitoring.controller.js`, followed by the properties of the
specification that concern them.

Conventions of the embedding:

* The table `suggested_actions` is a list of rows in insertion order together with
  the AUTO_INCREMENT counter. Columns and their defaults follow `database/init.db.js`.
* Time is a number of seconds (`Int`); every operation that evaluates `NOW()` or
  relies on `DEFAULT CURRENT_TIMESTAMP` receives the current time as `now`.
* The reasoning service is external: the outcome of the HTTP request is an argument
  (`AxiosReply`) and every request that is sent is recorded in the `calls` of the outcome.
* A thrown JavaScript exception is an `Except.error` carrying the message.
* A string comparison of the database (`status = ?`, `platform = ?`) is equality of
  strings, and `ORDER BY` on a text column is the order of `String`.
* Ids are natural numbers: the path parameter `:id` stands for the row the database
  selects with it, `req.user.id` for the numeric id of the authenticated principal.
-/

namespace Gaprio

/-! ## JavaScript values -/

/-- A JSON value: what `express.json()` hands to a handler, what axios returns as
`response.data`, and what `JSON.stringify` writes into a JSON column. Numbers are
integers here. -/
inductive JSON where
  | null
  | bool (b : Bool)
  | num (n : Int)
  | str (s : String)
  | arr (items : List JSON)
  | obj (fields : List (String × JSON))

namespace JSON

mutual
/-- Decidable equality of JSON values. -/
def decEq : (a b : JSON) → Decidable (a = b)
  | null, null => isTrue rfl
  | bool a, bool b =>
      if h : a = b then isTrue (congrArg bool h) else isFalse (fun e => h (bool.inj e))
  | num a, num b =>
      if h : a = b then isTrue (congrArg num h) else isFalse (fun e => h (num.inj e))
  | str a, str b =>
      if h : a = b then isTrue (congrArg str h) else isFalse (fun e => h (str.inj e))
  | arr a, arr b =>
      match decEqItems a b with
      | isTrue h => isTrue (congrArg arr h)
      | isFalse h => isFalse (fun e => h (arr.inj e))
  | obj a, obj b =>
      match decEqFields a b with
      | isTrue h => isTrue (congrArg obj h)
      | isFalse h => isFalse (fun e => h (obj.inj e))
  | null, bool _ => isFalse nofun
  | null, num _ => isFalse nofun
  | null, str _ => isFalse nofun
  | null, arr _ => isFalse nofun
  | null, obj _ => isFalse nofun
  | bool _, null => isFalse nofun
  | bool _, num _ => isFalse nofun
  | bool _, str _ => isFalse nofun
  | bool _, arr _ => isFalse nofun
  | bool _, obj _ => isFalse nofun
  | num _, null => isFalse nofun
  | num _, bool _ => isFalse nofun
  | num _, str _ => isFalse nofun
  | num _, arr _ => isFalse nofun
  | num _, obj _ => isFalse nofun
  | str _, null => isFalse nofun
  | str _, bool _ => isFalse nofun
  | str _, num _ => isFalse nofun
  | str _, arr _ => isFalse nofun
  | str _, obj _ => isFalse nofun
  | arr _, null => isFalse nofun
  | arr _, bool _ => isFalse nofun
  | arr _, num _ => isFalse nofun
  | arr _, str _ => isFalse nofun
  | arr _, obj _ => isFalse nofun
  | obj _, null => isFalse nofun
  | obj _, bool _ => isFalse nofun
  | obj _, num _ => isFalse nofun
  | obj _, str _ => isFalse nofun
  | obj _, arr _ => isFalse nofun
/-- Decidable equality of lists of JSON values. -/
def decEqItems : (a b : List JSON) → Decidable (a = b)
  | [], [] => isTrue rfl
  | [], _ :: _ => isFalse nofun
  | _ :: _, [] => isFalse nofun
  | x :: xs, y :: ys =>
      match decEq x y, decEqItems xs ys with
      | isTrue h, isTrue t => isTrue (by rw [h, t])
      | isFalse h, _ => isFalse (fun e => h (List.cons.inj e).1)
      | _, isFalse t => isFalse (fun e => t (List.cons.inj e).2)
/-- Decidable equality of the field lists of JSON objects. -/
def decEqFields : (a b : List (String × JSON)) → Decidable (a = b)
  | [], [] => isTrue rfl
  | [], _ :: _ => isFalse nofun
  | _ :: _, [] => isFalse nofun
  | (k, x) :: xs, (l, y) :: ys =>
      if hk : k = l then
        match decEq x y, decEqFields xs ys with
        | isTrue h, isTrue t => isTrue (by rw [hk, h, t])
        | isFalse h, _ => isFalse (fun e => h (Prod.mk.inj (List.cons.inj e).1).2)
        | _, isFalse t => isFalse (fun e => t (List.cons.inj e).2)
      else isFalse (fun e => hk (Prod.mk.inj (List.cons.inj e).1).1)
end

instance : DecidableEq JSON := decEq

/-- JavaScript truthiness (`ToBoolean`) of a JSON value: `null`, `false`, `0` and the
empty string are falsy, every array and every object (also an empty one) is truthy. -/
def truthy : JSON → Bool
  | null => false
  | bool b => b
  | num n => n != 0
  | str s => s != ""
  | arr _ => true
  | obj _ => true

mutual
/-- JavaScript `String(v)`, as used by a template literal and by `new Error(v)`. -/
def toStr : JSON → String
  | null => "null"
  | bool b => if b then "true" else "false"
  | num n => toString n
  | str s => s
  | arr items => joinStr items
  | obj _ => "[object Object]"
/-- The text of `Array.prototype.join(",")`: a `null` element contributes nothing. -/
def joinStr : List JSON → String
  | [] => ""
  | [x] => (match x with | null => "" | y => toStr y)
  | x :: y :: rest => (match x with | null => "" | z => toStr z) ++ "," ++ joinStr (y :: rest)
end

end JSON

/-- A JavaScript value that may be `undefined`: `none` is `undefined`. -/
abbrev JSValue := Option JSON

/-- Truthiness of a possibly undefined value. -/
def isTruthy : JSValue → Bool
  | none => false
  | some v => v.truthy

/-- JavaScript `a || b`. -/
def jsOr (a b : JSValue) : JSValue := if isTruthy a then a else b

/-- JavaScript `String(v)` of a possibly undefined value. -/
def jsString : JSValue → String
  | none => "undefined"
  | some v => v.toStr

/-- Decidable equality of results that are a value or the message of an exception. -/
instance decEqExcept {ε α : Type} [DecidableEq ε] [DecidableEq α] : DecidableEq (Except ε α)
  | .ok a, .ok b =>
      if h : a = b then isTrue (congrArg Except.ok h) else isFalse (fun e => h (Except.ok.inj e))
  | .error a, .error b =>
      if h : a = b then isTrue (congrArg Except.error h)
      else isFalse (fun e => h (Except.error.inj e))
  | .ok _, .error _ => isFalse nofun
  | .error _, .ok _ => isFalse nofun

/-- A JavaScript string as its sequence of UTF-16 code units: `length`, `trim` and
`substring` of the source count and cut code units. -/
abbrev JsText := List Nat

/-- The code units of one character. -/
def utf16Units (c : Char) : List Nat :=
  if c.toNat < 65536 then [c.toNat]
  else [55296 + (c.toNat - 65536) / 1024, 56320 + (c.toNat - 65536) % 1024]

/-- The UTF-16 code units of a string. -/
def utf16 (s : String) : JsText := (s.toList.map utf16Units).flatten

/-- The code units `String.prototype.trim` removes: WhiteSpace and LineTerminator. -/
def isTrimUnit (u : Nat) : Bool :=
  u == 9 || u == 10 || u == 11 || u == 12 || u == 13 || u == 32 || u == 160 ||
  u == 5760 || (decide (8192 ≤ u) && decide (u ≤ 8202)) || u == 8232 || u == 8233 ||
  u == 8239 || u == 8287 || u == 12288 || u == 65279

/-- JavaScript `String.prototype.trim`. -/
def jsTrim (t : JsText) : JsText :=
  ((t.dropWhile isTrimUnit).reverse.dropWhile isTrimUnit).reverse

/-- A code unit of the first half of a surrogate pair (U+D800..U+DBFF). -/
def isHighSurrogate (u : Nat) : Bool := decide (55296 ≤ u) && decide (u ≤ 56319)

/-- A code unit of the second half of a surrogate pair (U+DC00..U+DFFF). -/
def isLowSurrogate (u : Nat) : Bool := decide (56320 ≤ u) && decide (u ≤ 57343)

/-- The text a column holds for a JavaScript string bound to a statement, read back as
code units. The string travels to the database as UTF-8, and the encoder writes U+FFFD
(65533) for a surrogate that is not part of a pair; every other code unit is kept. This is
what `String.prototype.toWellFormed` returns. -/
def toWellFormed : JsText → JsText
  | [] => []
  | [u] => [if isHighSurrogate u || isLowSurrogate u then 65533 else u]
  | u :: v :: rest =>
    if isHighSurrogate u && isLowSurrogate v then u :: v :: toWellFormed rest
    else
      (if isHighSurrogate u || isLowSurrogate u then 65533 else u) :: toWellFormed (v :: rest)

/-- The property names the source reads from a value of the reasoning service. -/
inductive Key where
  | suggestions | tool | params | parameters | description | detail
deriving DecidableEq

/-- The name of a property as written in the source. -/
def Key.name : Key → String
  | .suggestions => "suggestions"
  | .tool => "tool"
  | .params => "params"
  | .parameters => "parameters"
  | .description => "description"
  | .detail => "detail"

/-- Property access `v.key`: a TypeError on `null`, the field of an object, and
`undefined` on every other value (none of the names is a property of a string, a
number, a boolean or an array). -/
def JSON.get (v : JSON) (key : Key) : Except String JSValue :=
  match v with
  | .null => .error "TypeError: Cannot read properties of null"
  | .obj fields => .ok (fields.lookup key.name)
  | _ => .ok none

/-- The value of `v.length` for a non-null `v`. -/
def JSON.lengthProp : JSON → JSValue
  | .arr items => some (.num items.length)
  | .str s => some (.num (utf16 s).length)
  | .obj fields => fields.lookup "length"
  | _ => none

/-- The values a `for ... of` loop visits: the elements of an array, the characters of
a string; `none` is the TypeError for a value that is not iterable. -/
def JSON.iterate : JSON → Option (List JSON)
  | .arr items => some items
  | .str s => some (s.toList.map fun c => .str (String.singleton c))
  | _ => none

/-! ## The action store (`models/suggestedAction.model.js`) -/

/-- Modelled from the spec: the database module `config/db` is not among the sources,
and the specification has structured fields "stored as serialized text and deserialized
transparently on read". A JSON column is represented by the value whose serialization it
holds: `none` is SQL NULL and `some v` is the text `JSON.stringify(v)`, which is a
non-empty string whose `JSON.parse` is `v`. -/
abbrev JsonColumn := Option JSON

/-- A row of `suggested_actions`, with the columns of `init.db.js`. An `Option`
column is nullable and `none` is SQL NULL. `suggested_tool` and `description` hold
the value that was bound (`JSON.null` for SQL NULL). -/
structure ActionRow where
  id : Nat
  user_id : Nat
  source_platform : String
  source_channel : String
  source_context : JsText
  suggested_tool : JSON
  suggested_params : JsonColumn
  description : JSON
  status : Option String
  edited_params : JsonColumn
  created_at : Int
  executed_at : Option Int
  execution_result : JsonColumn
deriving DecidableEq

/-- The table: its rows in insertion order and the next AUTO_INCREMENT id. -/
structure Store where
  rows : List ActionRow
  nextId : Nat
deriving DecidableEq

/-- The table right after `init.db.js` created it. -/
def Store.empty : Store := ⟨[], 1⟩

/-- The argument object of `create`. A field that may arrive `undefined` is a `JSValue`. -/
structure CreateArgs where
  userId : Nat
  sourcePlatform : String
  sourceChannel : String
  sourceContext : JsText
  suggestedTool : JSValue
  suggestedParams : JSValue
  description : JSValue
deriving DecidableEq

/-- The object `create` returns: `{ id: result.insertId, ...arguments[0], status: 'pending' }`. -/
structure CreatedAction where
  id : Nat
  args : CreateArgs
  status : String
deriving DecidableEq

/-- The object `findById` returns: the row with its three JSON columns parsed. -/
structure Action where
  id : Nat
  user_id : Nat
  source_platform : String
  source_channel : String
  source_context : JsText
  suggested_tool : JSON
  suggested_params : JSON
  description : JSON
  status : Option String
  edited_params : JSON
  created_at : Int
  executed_at : Option Int
  execution_result : JSON
deriving DecidableEq

namespace SuggestedActionModel

/-- The function `create`: the INSERT names seven columns, so `status`, `edited_params`,
`executed_at` and `execution_result` take the column default, which `init.db.js`
leaves at NULL, and `created_at` takes CURRENT_TIMESTAMP. The context is a JavaScript
string of any code units and is stored as `toWellFormed` of it. `db.execute` throws on an
`undefined` bind parameter (`JSON.stringify(undefined)` is `undefined` too); `dbOk`
says whether the database accepts the statement. -/
def create (st : Store) (now : Int) (dbOk : Bool) (a : CreateArgs) :
    Except String CreatedAction × Store :=
  match a.suggestedTool, a.suggestedParams, a.description with
  | some tool, some params, some descr =>
    if dbOk then
      (.ok { id := st.nextId, args := a, status := "pending" },
       { rows := st.rows ++ [{
           id := st.nextId
           user_id := a.userId
           source_platform := a.sourcePlatform
           source_channel := if a.sourceChannel = "" then "" else a.sourceChannel
           source_context := toWellFormed a.sourceContext
           suggested_tool := tool
           suggested_params := some params
           description := descr
           status := none
           edited_params := none
           created_at := now
           executed_at := none
           execution_result := none }]
         nextId := st.nextId + 1 })
    else (.error "database error", st)
  | _, _, _ => (.error "Bind parameters must not contain undefined", st)

/-- Reading a JSON column, for both expressions of `findById`:
`typeof x === 'string' ? JSON.parse(x) : x` and
`x ? (typeof x === 'string' ? JSON.parse(x) : x) : null`.
SQL NULL reads as `null`; a stored text is a truthy string and is parsed. -/
def readJson : JsonColumn → JSON
  | none => .null
  | some v => v

/-- The object built from a row by `findById` (and by `findByUserId`). -/
def toAction (row : ActionRow) : Action :=
  { id := row.id
    user_id := row.user_id
    source_platform := row.source_platform
    source_channel := row.source_channel
    source_context := row.source_context
    suggested_tool := row.suggested_tool
    suggested_params := readJson row.suggested_params
    description := row.description
    status := row.status
    edited_params := readJson row.edited_params
    created_at := row.created_at
    executed_at := row.executed_at
    execution_result := readJson row.execution_result }

/-- The function `findById`: `SELECT * FROM suggested_actions WHERE id = ?`, first row or `null`. -/
def findById (st : Store) (id : Nat) : Option Action :=
  match st.rows.find? (fun r => r.id == id) with
  | none => none
  | some row => some (toAction row)

/-- The function `updateStatus(id, status, executionResult = null)`:
`UPDATE suggested_actions SET status = ? [, executed_at = NOW()] [, execution_result = ?]
WHERE id = ?`; `executed_at` is set when `status === 'executed'`, `execution_result`
when `executionResult` is truthy. -/
def updateStatus (st : Store) (now : Int) (id : Nat) (status : String)
    (executionResult : JSValue) : Store :=
  { st with rows := st.rows.map fun r =>
      if r.id = id then
        { r with
          status := some status
          executed_at := if status = "executed" then some now else r.executed_at
          execution_result :=
            if isTruthy executionResult then executionResult else r.execution_result }
      else r }

/-- The function `updateParams(id, editedParams)`: `UPDATE suggested_actions SET edited_params = ?
WHERE id = ?` with `JSON.stringify(editedParams)`; an `undefined` argument makes
`db.execute` throw. -/
def updateParams (st : Store) (id : Nat) (editedParams : JSValue) : Except String Store :=
  match editedParams with
  | none => .error "Bind parameters must not contain undefined"
  | some v =>
    .ok { st with rows := st.rows.map fun r =>
      if r.id = id then { r with edited_params := some v } else r }

/-- The function `getPendingCount`: `SELECT COUNT(*) ... WHERE user_id = ? AND status = 'pending'`. -/
def getPendingCount (st : Store) (userId : Nat) : Nat :=
  (st.rows.filter fun r => r.user_id == userId && r.status == some "pending").length

/-- The function `expireOld(hoursOld)`: `UPDATE suggested_actions SET status = 'expired' WHERE
status = 'pending' AND created_at < DATE_SUB(NOW(), INTERVAL ? HOUR)`. -/
def expireOld (st : Store) (now : Int) (hoursOld : Int) : Store :=
  { st with rows := st.rows.map fun r =>
      if r.status = some "pending" ∧ r.created_at < now - hoursOld * 3600 then
        { r with status := some "expired" }
      else r }

end SuggestedActionModel

/-! ## The reasoning service -/

/-- A request sent to the reasoning service, with its body. -/
inductive AgentCall where
  | analyzeContext (user_id : Nat) (platform : String) (channel_id : String)
      (context : JsText) (metadata : JSON)
  | executeAction (user_id : Nat) (tool : JSON) (parameters : JSON)
deriving DecidableEq

/-- The outcome of one `axios.post`: a 2xx response with its body `response.data`, or a
rejection (connection refused, timeout, error status) with `error.code`,
`error.message` and, when the service answered, the body `error.response.data`. -/
inductive AxiosReply where
  | ok (data : JSON)
  | failed (code : Option String) (message : String) (responseData : Option JSON)
deriving DecidableEq

/-- The value of `error.response?.data?.detail`. -/
def errorDetail (responseData : Option JSON) : JSValue :=
  match responseData with
  | none => none
  | some .null => none
  | some d => (match d.get .detail with | .ok v => v | .error _ => none)

/-! ## The monitoring service (`services/monitoring.service.js`) -/

/-- What `processEvent` leaves behind: the value it returns (`none` is `undefined`),
the table, and the requests it sent. -/
structure EventOutcome where
  result : Option (List CreatedAction)
  store : Store
  calls : List AgentCall
deriving DecidableEq

/-- The object `executeAction` returns on success. -/
structure ExecResult where
  success : Bool
  result : JSON
deriving DecidableEq

/-- What `executeAction` leaves behind: the returned object or the message of the
thrown error, the table, and the requests it sent. -/
structure ExecOutcome where
  result : Except String ExecResult
  store : Store
  calls : List AgentCall
deriving DecidableEq

namespace MonitoringService

open SuggestedActionModel

/-- The argument object built for one suggestion of the loop in `processEvent`; reading
a property of a `null` suggestion is a TypeError. -/
def suggestionArgs (userId : Nat) (platform channelId : String) (contextText : JsText)
    (suggestion : JSON) : Except String CreateArgs := do
  let tool ← suggestion.get .tool
  let params ← suggestion.get .params
  let parameters ← suggestion.get .parameters
  let description ← suggestion.get .description
  pure { userId := userId
         sourcePlatform := platform
         sourceChannel := channelId
         sourceContext := contextText.take 500
         suggestedTool := tool
         suggestedParams := jsOr (jsOr params parameters) (some (.obj []))
         description := jsOr description (some (.str (jsString tool ++ " action"))) }

/-- The loop `for (const suggestion of suggestions)`: one `create` per suggestion, in
order; `index` numbers the INSERT statements for `dbOk`. The first exception ends the
loop and keeps what was written before it. -/
def storeSuggestions (userId : Nat) (platform channelId : String) (contextText : JsText)
    (now : Int) (dbOk : Nat → Bool) :
    List JSON → Nat → Store → List CreatedAction → Except String (List CreatedAction) × Store
  | [], _, st, created => (.ok created, st)
  | suggestion :: rest, index, st, created =>
    match suggestionArgs userId platform channelId contextText suggestion with
    | .error e => (.error e, st)
    | .ok args =>
      match create st now (dbOk index) args with
      | (.error e, st1) => (.error e, st1)
      | (.ok action, st1) =>
        storeSuggestions userId platform channelId contextText now dbOk rest (index + 1) st1
          (created ++ [action])

/-- The function `processEvent(userId, platform, channelId, contextText, metadata = {})`.
A missing `contextText` is `none`; `reply` is the outcome of the request to
`/analyze-context`. Every exception is caught and turned into `[]`. -/
def processEvent (st : Store) (now : Int) (userId : Nat) (platform channelId : String)
    (contextText : Option JsText) (metadata : JSValue) (reply : AxiosReply)
    (dbOk : Nat → Bool) : EventOutcome :=
  match contextText with
  | none => ⟨none, st, []⟩
  | some text =>
    if text = [] ∨ (jsTrim text).length < 10 then ⟨none, st, []⟩
    else
      let call := AgentCall.analyzeContext userId platform channelId text
        (match metadata with | none => .obj [] | some m => m)
      match reply with
      | .failed _ _ _ => ⟨some [], st, [call]⟩
      | .ok data =>
        match data.get .suggestions with
        | .error _ => ⟨some [], st, [call]⟩
        | .ok found =>
          match jsOr found (some (.arr [])) with
          | none => ⟨some [], st, [call]⟩
          | some suggestions =>
            if suggestions.lengthProp = some (.num 0) then ⟨some [], st, [call]⟩
            else
              match suggestions.iterate with
              | none => ⟨some [], st, [call]⟩
              | some items =>
                match storeSuggestions userId platform channelId text now dbOk items 0 st [] with
                | (.ok created, st1) => ⟨some created, st1, [call]⟩
                | (.error _, st1) => ⟨some [], st1, [call]⟩

/-- The function `executeAction(userId, actionId)`; `reply` is the outcome of the
request to `/execute-action`. -/
def executeAction (st : Store) (now : Int) (userId actionId : Nat) (reply : AxiosReply) :
    ExecOutcome :=
  match findById st actionId with
  | none => ⟨.error "Action not found", st, []⟩
  | some action =>
    if action.user_id ≠ userId then ⟨.error "Unauthorized", st, []⟩
    else
      let params := if action.edited_params.truthy then action.edited_params
        else action.suggested_params
      let call := AgentCall.executeAction userId action.suggested_tool params
      match reply with
      | .ok executionResult =>
        ⟨.ok { success := true, result := executionResult },
         updateStatus st now actionId "executed" (some executionResult), [call]⟩
      | .failed _ message responseData =>
        ⟨.error (if isTruthy (errorDetail responseData) then jsString (errorDetail responseData)
                 else message), st, [call]⟩

end MonitoringService

/-! ## The review handlers (`controllers/monitoring.controller.js`) -/

/-- What a handler does with the request: `res.status(code).json({ success, message })`
(`res.json` is status 200), or `next(error)`. -/
inductive Response where
  | json (status : Nat) (success : Bool) (message : String)
  | next (error : String)
deriving DecidableEq

/-- What a handler leaves behind: its response, the table, and the requests it sent to
the reasoning service. -/
structure HandlerOutcome where
  response : Response
  store : Store
  calls : List AgentCall
deriving DecidableEq

namespace Controller

open SuggestedActionModel

/-- The handler `updateAction` (`PUT /actions/:id`); `caller` is `req.user.id`, `id` the
row the path parameter selects, `params` the property `params` of the body. -/
def updateAction (st : Store) (caller id : Nat) (params : JSValue) : HandlerOutcome :=
  match findById st id with
  | none => ⟨.json 404 false "Action not found", st, []⟩
  | some action =>
    if action.user_id ≠ caller then ⟨.json 403 false "Unauthorized", st, []⟩
    else
      match updateParams st id params with
      | .error e => ⟨.next e, st, []⟩
      | .ok st1 => ⟨.json 200 true "Action parameters updated", st1, []⟩

/-- The handler `rejectAction` (`POST /actions/:id/reject`). -/
def rejectAction (st : Store) (now : Int) (caller id : Nat) : HandlerOutcome :=
  match findById st id with
  | none => ⟨.json 404 false "Action not found", st, []⟩
  | some action =>
    if action.user_id ≠ caller then ⟨.json 403 false "Unauthorized", st, []⟩
    else ⟨.json 200 true "Action dismissed", updateStatus st now id "rejected" none, []⟩

end Controller

/-! ## Sequences of operations -/

/-- One operation of the ingestion, review and execution surface, with everything the
environment decides (the time, the reply of the reasoning service). -/
inductive Op where
  | processEvent (now : Int) (userId : Nat) (platform channelId : String)
      (contextText : Option JsText) (metadata : JSValue) (reply : AxiosReply)
      (dbOk : Nat → Bool)
  | updateAction (caller id : Nat) (params : JSValue)
  | rejectAction (now : Int) (caller id : Nat)
  | executeAction (now : Int) (userId actionId : Nat) (reply : AxiosReply)
  | expireOld (now : Int) (hoursOld : Int)

/-- The table after one operation. -/
def Op.apply (st : Store) : Op → Store
  | .processEvent now userId platform channelId contextText metadata reply dbOk =>
    (MonitoringService.processEvent st now userId platform channelId contextText metadata
      reply dbOk).store
  | .updateAction caller id params => (Controller.updateAction st caller id params).store
  | .rejectAction now caller id => (Controller.rejectAction st now caller id).store
  | .executeAction now userId actionId reply =>
    (MonitoringService.executeAction st now userId actionId reply).store
  | .expireOld now hoursOld => SuggestedActionModel.expireOld st now hoursOld

/-- The table after a sequence of operations. -/
def run (ops : List Op) (st : Store) : Store := ops.foldl Op.apply st

/-- A table that some sequence of operations produces from the empty one. -/
def Reachable (st : Store) : Prop := ∃ ops, run ops Store.empty = st


/-! ## Observations and example data -/

/-- The status `findById` reports for an id (`none` when it finds no row). -/
def statusOf (st : Store) (id : Nat) : Option (Option String) :=
  (SuggestedActionModel.findById st id).map (·.status)

/-- The outcome fields `findById` reports for an id: `execution_result` and `executed_at`. -/
def outcomeOf (st : Store) (id : Nat) : Option (JSON × Option Int) :=
  (SuggestedActionModel.findById st id).map fun a => (a.execution_result, a.executed_at)

/-- The argument object of the `create` scenario of the specification. -/
def exArgs : CreateArgs :=
  { userId := 1, sourcePlatform := "slack", sourceChannel := "C1",
    sourceContext := utf16 "Can someone file a ticket for the login bug?",
    suggestedTool := some (.str "jira.createIssue"),
    suggestedParams := some (.obj [("summary", .str "Login bug")]),
    description := some (.str "Create Jira issue") }

/-- The table after the scenario's `create` at time 1000. -/
def exStore : Store := (SuggestedActionModel.create Store.empty 1000 true exArgs).2

/-- The row the scenario stores. -/
def exRow : ActionRow :=
  { id := 1, user_id := 1, source_platform := "slack", source_channel := "C1",
    source_context := utf16 "Can someone file a ticket for the login bug?",
    suggested_tool := .str "jira.createIssue",
    suggested_params := some (.obj [("summary", .str "Login bug")]),
    description := .str "Create Jira issue", status := none, edited_params := none,
    created_at := 1000, executed_at := none, execution_result := none }

/-- The reply of the reasoning service in the scenario: one suggestion. -/
def exReply : AxiosReply :=
  .ok (.obj [("suggestions", .arr [.obj [
    ("tool", .str "jira.createIssue"),
    ("params", .obj [("summary", .str "Login bug")]),
    ("description", .str "Create Jira issue")]])])

/-- The inbound event of the scenario, analysed at time 1000 for user 1. -/
def exEvent : Op :=
  .processEvent 1000 1 "slack" "C1"
    (some (utf16 "Can someone file a ticket for the login bug?")) none exReply (fun _ => true)

/-- The table after the event and a reject by the owner at time 2000. -/
def rejectedStore : Store := run [exEvent, .rejectAction 2000 1 1] Store.empty

/-- The table after the event and a successful execute by the owner at time 2000. -/
def executedStore : Store :=
  run [exEvent, .executeAction 2000 1 1 (.ok (.obj [("issueKey", .str "PROJ-42")]))] Store.empty

/-- The table after the event and an edit by the owner whose body is `{"params": false}`. -/
def editedFalseStore : Store := run [exEvent, .updateAction 1 1 (some (.bool false))] Store.empty

/-! ## The action store, continued -/

namespace SuggestedActionModel

/-- The function `findByUserId(userId, status = null, limit = 50)`:
`SELECT * FROM suggested_actions WHERE user_id = ? [AND status = ?] ORDER BY created_at
DESC LIMIT ?`. The status filter applies when `status` is truthy; rows of equal
`created_at` keep their insertion order. -/
def findByUserId (st : Store) (userId : Nat) (status : Option String) (limit : Option Nat) :
    List Action :=
  (((st.rows.filter fun r =>
      r.user_id == userId &&
      (match status with
       | none => true
       | some s => if s = "" then true else r.status == some s)).insertionSort
      (fun a b => a.created_at ≥ b.created_at)).take (limit.getD 50)).map toAction

end SuggestedActionModel

/-! ## The channel registry (`models/monitoredChannel.model.js`) -/

/-- A row of `monitored_channels`, with the columns of `init.db.js`. -/
structure ChannelRow where
  id : Nat
  user_id : Nat
  platform : String
  channel_id : String
  channel_name : String
  is_active : Bool
  created_at : Int
deriving DecidableEq

/-- The table `monitored_channels`: its rows in insertion order and the next
AUTO_INCREMENT id. -/
structure Registry where
  rows : List ChannelRow
  nextId : Nat
deriving DecidableEq

/-- The table right after `init.db.js` created it. -/
def Registry.empty : Registry := ⟨[], 1⟩

/-- A channel as the callers pass it: `{ platform, channelId, channelName }`; `none` is a
property that is missing. -/
structure ChannelSpec where
  platform : Option String
  channelId : String
  channelName : Option String
deriving DecidableEq

/-- JavaScript `v || d` for a string that may be missing: the empty string is falsy. -/
def orDefault (v : Option String) (d : String) : String :=
  match v with
  | none => d
  | some s => if s = "" then d else s

namespace MonitoredChannelModel

/-- The row one `VALUES` tuple `[userId, c.platform || 'slack', c.channelId,
c.channelName || '']` inserts: `is_active` and `created_at` take their defaults. -/
def newRow (now : Int) (userId : Nat) (id : Nat) (c : ChannelSpec) : ChannelRow :=
  { id := id
    user_id := userId
    platform := orDefault c.platform "slack"
    channel_id := c.channelId
    channel_name := orDefault c.channelName ""
    is_active := true
    created_at := now }

/-- The rows a multi-row INSERT adds, with consecutive ids from `id` on. -/
def newRows (now : Int) (userId : Nat) : List ChannelSpec → Nat → List ChannelRow
  | [], _ => []
  | c :: rest, id => newRow now userId id c :: newRows now userId rest (id + 1)

/-- The statement `INSERT INTO monitored_channels (user_id, platform, channel_id,
channel_name) VALUES ... ON DUPLICATE KEY UPDATE channel_name = VALUES(channel_name),
is_active = TRUE`. The only key `init.db.js` declares for the table is `PRIMARY KEY (id)`,
and the statement leaves `id` to AUTO_INCREMENT, so no tuple meets a duplicate key: every
tuple is inserted. -/
def insertOrUpdate (reg : Registry) (now : Int) (userId : Nat) (channels : List ChannelSpec) :
    Registry :=
  { rows := reg.rows ++ newRows now userId channels reg.nextId
    nextId := reg.nextId + channels.length }

/-- The function `upsert({ userId, platform, channelId, channelName })`. -/
def upsert (reg : Registry) (now : Int) (userId : Nat) (c : ChannelSpec) : Registry :=
  insertOrUpdate reg now userId [c]

/-- The function `bulkUpsert(userId, channels)`: nothing for an empty list. -/
def bulkUpsert (reg : Registry) (now : Int) (userId : Nat) (channels : List ChannelSpec) :
    Registry :=
  if channels.length = 0 then reg else insertOrUpdate reg now userId channels

/-- The function `findByUserId(userId, platform = null)`: `SELECT * FROM monitored_channels
WHERE user_id = ? AND is_active = TRUE [AND platform = ?] ORDER BY channel_name ASC`. The
platform filter applies when `platform` is truthy; names are ordered character by
character. -/
def findByUserId (reg : Registry) (userId : Nat) (platform : Option String) :
    List ChannelRow :=
  (reg.rows.filter fun r =>
      r.user_id == userId && r.is_active &&
      (match platform with
       | none => true
       | some p => if p = "" then true else r.platform == p)).insertionSort
    (fun a b => a.channel_name.toList ≤ b.channel_name.toList)

/-- The function `isMonitored(userId, channelId)`. -/
def isMonitored (reg : Registry) (userId : Nat) (channelId : String) : Bool :=
  (reg.rows.filter fun r =>
    r.user_id == userId && r.channel_id == channelId && r.is_active).length > 0

/-- The function `findUsersByChannelId(channelId)`: `SELECT user_id FROM
monitored_channels WHERE channel_id = ? AND is_active = TRUE`, one entry per row. -/
def findUsersByChannelId (reg : Registry) (channelId : String) : List Nat :=
  (reg.rows.filter fun r => r.channel_id == channelId && r.is_active).map (·.user_id)

/-- The function `delete(userId, channelId)`: `UPDATE monitored_channels SET is_active =
FALSE WHERE user_id = ? AND channel_id = ?`. -/
def delete (reg : Registry) (userId : Nat) (channelId : String) : Registry :=
  { reg with rows := reg.rows.map fun r =>
      if r.user_id = userId ∧ r.channel_id = channelId then { r with is_active := false }
      else r }

/-- The function `deleteById(id)`: `UPDATE monitored_channels SET is_active = FALSE WHERE
id = ?`. -/
def deleteById (reg : Registry) (id : Nat) : Registry :=
  { reg with rows := reg.rows.map fun r =>
      if r.id = id then { r with is_active := false } else r }

/-- The UPDATE of `replaceAll`: `SET is_active = FALSE WHERE user_id = ? AND platform = ?`. -/
def deactivateAll (reg : Registry) (userId : Nat) (platform : String) : Registry :=
  { reg with rows := reg.rows.map fun r =>
      if r.user_id = userId ∧ r.platform = platform then { r with is_active := false }
      else r }

/-- The function `replaceAll(userId, platform, channels)`: deactivate every row of the
pair, then, when the list is not empty, `bulkUpsert` the list with `platform` written
over the platform of every entry. -/
def replaceAll (reg : Registry) (now : Int) (userId : Nat) (platform : String)
    (channels : List ChannelSpec) : Registry :=
  if channels.length > 0 then
    bulkUpsert (deactivateAll reg userId platform) now userId
      (channels.map fun c => { c with platform := some platform })
  else deactivateAll reg userId platform

end MonitoredChannelModel

/-! ## The remaining handlers and their environment -/

/-- The failure of one database call, decided by the environment: `none` when the call
succeeds, `some e` when it throws an error with message `e`. -/
abbrev Fault := Option String

/-- What a handler does with the request: `res.status(code).json(body)` with the
properties of the body in source order (`res.json` is status 200), `res.sendStatus(code)`
after `res.set` of the headers, `next(error)`, or an exception that leaves the handler
uncaught. -/
inductive Reply where
  | json (status : Nat) (body : List (String × JSON))
  | sendStatus (status : Nat) (headers : List (String × String))
  | next (error : String)
  | raised (error : String)
deriving DecidableEq

/-- Whether the handler answered with a body whose `success` is `true`. -/
def Reply.success : Reply → Bool
  | .json _ body => body.lookup "success" == some (.bool true)
  | _ => false

/-- Whether the earlier form of a response is a body whose `success` is `true`. -/
def Response.success : Response → Bool
  | .json _ success _ => success
  | .next _ => false

/-- Property access `v.name` for the names the handlers read from a request or response
body (`events`, `action`, `resource`, `resource_type`, `message`): a TypeError on `null`,
the field of an object, `undefined` on every other value. -/
def JSON.prop (v : JSON) (name : String) : Except String JSValue :=
  match v with
  | .null => .error "TypeError: Cannot read properties of null"
  | .obj fields => .ok (fields.lookup name)
  | _ => .ok none

/-- A row of `monitored_channels` as it appears in a response body; the flag is the
number MySQL stores and the date is its number of seconds. -/
def ChannelRow.toJSON (r : ChannelRow) : JSON :=
  .obj [("id", .num r.id), ("user_id", .num r.user_id), ("platform", .str r.platform),
    ("channel_id", .str r.channel_id), ("channel_name", .str r.channel_name),
    ("is_active", .num (if r.is_active then 1 else 0)), ("created_at", .num r.created_at)]

/-- The value of a property of the object `create` returns. -/
inductive PropValue where
  | number (n : Nat)
  | string (s : String)
  | text (t : JsText)
  | value (v : JSValue)
deriving DecidableEq

/-- Reading a property of the object `create` returns,
`{ id: result.insertId, ...arguments[0], status: 'pending' }`, for an argument object with
the seven properties `create` names; `none` for a name the object does not have, which
JavaScript reads as `undefined`. -/
def CreatedAction.prop (c : CreatedAction) (name : String) : Option PropValue :=
  if name = "status" then some (.string c.status)
  else if name = "userId" then some (.number c.args.userId)
  else if name = "sourcePlatform" then some (.string c.args.sourcePlatform)
  else if name = "sourceChannel" then some (.string c.args.sourceChannel)
  else if name = "sourceContext" then some (.text c.args.sourceContext)
  else if name = "suggestedTool" then some (.value c.args.suggestedTool)
  else if name = "suggestedParams" then some (.value c.args.suggestedParams)
  else if name = "description" then some (.value c.args.description)
  else if name = "id" then some (.number c.id)
  else none

/-- What a handler of the channel registry leaves behind: its reply and the table. -/
structure RegistryOutcome where
  reply : Reply
  registry : Registry
deriving DecidableEq

/-- What a handler of the action store leaves behind: its reply, the table, and the
requests it sent to the reasoning service. -/
structure ReplyOutcome where
  reply : Reply
  store : Store
  calls : List AgentCall
deriving DecidableEq

/-- The body of `POST /internal/analyze` after `express.json()`: `none` is a property
that is missing. -/
structure AnalyzeBody where
  userId : Option Nat
  platform : Option String
  channelId : Option String
  context : Option JsText
  metadata : JSValue
deriving DecidableEq

namespace Controller

open MonitoredChannelModel

/-- The answer of `setChannels` once the registry is replaced: the SELECT of
`findByUserId`, then `res.json({ success: true, data: updated, message })`. -/
def answerChannels (reg : Registry) (caller : Nat) (platform : String) (selectFault : Fault) :
    RegistryOutcome :=
  match selectFault with
  | some e => ⟨.next e, reg⟩
  | none =>
    ⟨.json 200 [("success", .bool true),
        ("data", .arr ((MonitoredChannelModel.findByUserId reg caller (some platform)).map
          ChannelRow.toJSON)),
        ("message", .str ("Monitoring " ++
          toString (MonitoredChannelModel.findByUserId reg caller (some platform)).length ++
          " " ++ platform ++ " channels"))], reg⟩

/-- The handler `setChannels` (`POST /channels`); `platform` and `channels` are the
properties of the body, `channels` being `none` when it is missing or not an array. The
three faults are those of the UPDATE and the INSERT of `replaceAll` and of the SELECT of
`findByUserId`. -/
def setChannels (reg : Registry) (now : Int) (caller : Nat) (platform : Option String)
    (channels : Option (List ChannelSpec)) (updateFault insertFault selectFault : Fault) :
    RegistryOutcome :=
  match platform, channels with
  | some p, some list =>
    if p = "" then
      ⟨.json 400 [("success", .bool false),
        ("message", .str "platform and channels[] are required")], reg⟩
    else
      match updateFault with
      | some e => ⟨.next e, reg⟩
      | none =>
        if list.length > 0 then
          match insertFault with
          | some e => ⟨.next e, deactivateAll reg caller p⟩
          | none =>
            answerChannels
              (bulkUpsert (deactivateAll reg caller p) now caller
                (list.map fun c => { c with platform := some p })) caller p selectFault
        else answerChannels (deactivateAll reg caller p) caller p selectFault
  | _, _ =>
    ⟨.json 400 [("success", .bool false),
      ("message", .str "platform and channels[] are required")], reg⟩

/-- The handler `removeChannel` (`DELETE /channels/:id`); the second argument is
`req.user.id`, which the handler does not read. -/
def removeChannel (reg : Registry) (_caller : Nat) (id : Nat) (fault : Fault) :
    RegistryOutcome :=
  match fault with
  | some e => ⟨.next e, reg⟩
  | none =>
    ⟨.json 200 [("success", .bool true), ("message", .str "Channel removed from monitoring")],
     deleteById reg id⟩

/-- The handler `internalAnalyze` (`POST /internal/analyze`). A user id `0` and an empty
context are falsy like missing ones. -/
def internalAnalyze (st : Store) (now : Int) (body : AnalyzeBody) (reply : AxiosReply)
    (dbOk : Nat → Bool) : ReplyOutcome :=
  match body.userId, body.context with
  | some userId, some context =>
    if userId = 0 ∨ context = [] then
      ⟨.json 400 [("success", .bool false), ("message", .str "userId and context required")],
       st, []⟩
    else
      match MonitoringService.processEvent st now userId (orDefault body.platform "slack")
          (orDefault body.channelId "") (some context)
          (jsOr body.metadata (some (.obj []))) reply dbOk with
      | ⟨actions, st1, calls⟩ =>
        ⟨.json 200 [("success", .bool true),
          ("count", .num (match actions with | some l => l.length | none => 0))], st1, calls⟩
  | _, _ =>
    ⟨.json 400 [("success", .bool false), ("message", .str "userId and context required")],
     st, []⟩

/-- The handler `executeAction` (`POST /actions/:id/execute`). `findFault` is the failure
of the SELECT of `findById`, `updateFault` that of the UPDATE of `updateStatus`, which the
service rethrows with the same message. -/
def executeAction (st : Store) (now : Int) (caller id : Nat) (reply : AxiosReply)
    (findFault updateFault : Fault) : ReplyOutcome :=
  match findFault with
  | some e => ⟨.next e, st, []⟩
  | none =>
    match MonitoringService.executeAction st now caller id reply with
    | ⟨.error e, st1, calls⟩ => ⟨.next e, st1, calls⟩
    | ⟨.ok result, st1, calls⟩ =>
      match updateFault with
      | some e => ⟨.next e, st, calls⟩
      | none =>
        ⟨.json 200 [("success", .bool true),
          ("data", .obj [("success", .bool result.success), ("result", result.result)])],
         st1, calls⟩

/-- The events loop of `asanaWebhook`: `event.action` and
`event.resource?.resource_type` are read for every event; `some e` is the TypeError of a
`null` event. -/
def logEvents : List JSON → Option String
  | [] => none
  | event :: rest =>
    match event.prop "action" with
    | .error e => some e
    | .ok _ => logEvents rest

/-- The handler `asanaWebhook` (`POST /webhooks/asana`); `hookSecret` is the header
`x-hook-secret` (`none` when absent), `body` is `req.body` (`none` when undefined). The
handler has no `try`. -/
def asanaWebhook (hookSecret : Option String) (body : Option JSON) : Reply :=
  if orDefault hookSecret "" ≠ "" then
    .sendStatus 200 [("X-Hook-Secret", orDefault hookSecret "")]
  else
    match ((match body with
            | none => some (JSON.arr [])
            | some .null => some (JSON.arr [])
            | some b =>
              match b.prop "events" with
              | .ok found => jsOr found (some (JSON.arr []))
              | .error _ => some (JSON.arr [])) : JSValue) with
    | none => .sendStatus 200 []
    | some events =>
      match events.iterate with
      | none => .raised "TypeError: events is not iterable"
      | some items =>
        match logEvents items with
        | some e => .raised e
        | none => .sendStatus 200 []

/-- The handler `updateAction` with the failures of its database calls: `findFault` is
the failure of the SELECT of `findById`, `updateFault` that of the UPDATE. -/
def updateActionWithFaults (st : Store) (caller id : Nat) (params : JSValue)
    (findFault updateFault : Fault) : HandlerOutcome :=
  match findFault with
  | some e => ⟨.next e, st, []⟩
  | none =>
    match SuggestedActionModel.findById st id with
    | none => ⟨.json 404 false "Action not found", st, []⟩
    | some action =>
      if action.user_id ≠ caller then ⟨.json 403 false "Unauthorized", st, []⟩
      else
        match SuggestedActionModel.updateParams st id params with
        | .error e => ⟨.next e, st, []⟩
        | .ok st1 =>
          match updateFault with
          | some e => ⟨.next e, st, []⟩
          | none => ⟨.json 200 true "Action parameters updated", st1, []⟩

/-- The handler `rejectAction` with the failures of its database calls. -/
def rejectActionWithFaults (st : Store) (now : Int) (caller id : Nat)
    (findFault updateFault : Fault) : HandlerOutcome :=
  match findFault with
  | some e => ⟨.next e, st, []⟩
  | none =>
    match SuggestedActionModel.findById st id with
    | none => ⟨.json 404 false "Action not found", st, []⟩
    | some action =>
      if action.user_id ≠ caller then ⟨.json 403 false "Unauthorized", st, []⟩
      else
        match updateFault with
        | some e => ⟨.next e, st, []⟩
        | none =>
          ⟨.json 200 true "Action dismissed",
           SuggestedActionModel.updateStatus st now id "rejected" none, []⟩

end Controller

/-! ## Slack handlers (`controllers/integration.controller.js`) -/

/-- The outcome of `getClient` followed by `client.chat.postMessage`: the `ts` of the
posted message, or a failure with `error.data?.error` and `error.message`. -/
inductive SlackPost where
  | ok (ts : JSValue)
  | failed (dataError : Option String) (message : String)
deriving DecidableEq

/-- The function `SlackService.sendMessage` of `services/providers/slack.service.js`:
`{ success: true, ts: result.ts }`, or the error
"Failed to send Slack message: " followed by `error.data?.error || error.message`. -/
def SlackService.sendMessage (post : SlackPost) : Except String JSON :=
  match post with
  | .ok ts =>
    .ok (.obj (("success", .bool true) :: (match ts with | some t => [("ts", t)] | none => [])))
  | .failed dataError message =>
    .error ("Failed to send Slack message: " ++ orDefault dataError message)

namespace IntegrationController

/-- The handler `sendSlackMessage`. `userLookup` is the outcome of `User.findById` (the
user model is not among the sources): the `full_name` of the user or the error it throws.
The name only shapes the message that is posted. -/
def sendSlackMessage (userLookup : Except String (Option String)) (post : SlackPost) : Reply :=
  match userLookup with
  | .error e => .next e
  | .ok _ =>
    match SlackService.sendMessage post with
    | .error e => .next e
    | .ok result =>
      .json 200 [("success", .bool true), ("message", .str "Message sent"), ("data", result)]

/-- The answer of the outer `catch` of `slackAIChat`. -/
def chatFailure : Reply :=
  .json 200 [("success", .bool true),
    ("data", .obj [("aiResponse", .str "⚠️ Failed to process. Please try again.")])]

/-- The text `aiResponse` of `slackAIChat` after the request to `/ask-agent`;
`cleanResponse` stands for the three regular-expression replacements and the `trim`. A
`message` of the reply that is truthy and not a string makes `replace` throw inside the
inner `try`, which its `catch` answers like any other failure. -/
def aiResponseText (agent : AxiosReply) (cleanResponse : String → String) : String :=
  match agent with
  | .ok data =>
    match jsOr (match data with
                | .null => none
                | d => (match d.prop "message" with | .ok v => v | .error _ => none))
        (some (.str "I processed your request.")) with
    | some (.str s) => cleanResponse s
    | _ => "⚠️ AI processing failed. Your message was still sent to Slack."
  | .failed code _ _ =>
    if code = some "ECONNREFUSED" then
      "⚠️ Gaprio AI is currently offline. Your message was sent to Slack but the AI could not process it."
    else if code = some "ECONNABORTED" then
      "⏳ The AI is still processing your request. Check Slack for updates shortly."
    else "⚠️ AI processing failed. Your message was still sent to Slack."

/-- The handler `slackAIChat`. `message` is the property of the body (`none` when
missing, which makes `message.replace` throw), `first` and `second` are the outcomes of
the two posts to Slack, `agent` that of the request to `/ask-agent`. -/
def slackAIChat (userLookup : Except String (Option String)) (message : Option String)
    (first : SlackPost) (agent : AxiosReply) (second : SlackPost)
    (cleanResponse : String → String) : Reply :=
  match userLookup with
  | .error _ => chatFailure
  | .ok _ =>
    match SlackService.sendMessage first with
    | .error _ => chatFailure
    | .ok sentMsg =>
      match message with
      | none => chatFailure
      | some _ =>
        match SlackService.sendMessage second with
        | .error _ => chatFailure
        | .ok aiReply =>
          .json 200 [("success", .bool true),
            ("data", .obj [("userMessage", sentMsg),
              ("aiResponse", .str (aiResponseText agent cleanResponse)),
              ("aiReply", aiReply)])]

end IntegrationController

/-- The WHERE clause of `SuggestedActionModel.findByUserId`: `user_id = ?`, and
`status = ?` when `status` is truthy. -/
def SuggestedActionModel.selects (userId : Nat) (status : Option String) (r : ActionRow) :
    Bool :=
  r.user_id == userId &&
  (match status with
   | none => true
   | some s => if s = "" then true else r.status == some s)

/-! ## Example data of the registry and of later scenarios -/

/-- The channel `C1` of Slack, named "general". -/
def exChannel : ChannelSpec := ⟨some "slack", "C1", some "general"⟩

/-- The registry in which user 1 monitors the Slack channel `C0`. -/
def exRegistry : Registry :=
  MonitoredChannelModel.upsert Registry.empty 1000 1 ⟨some "slack", "C0", some "random"⟩

/-- The registry in which user 1 monitors the channel id `C1` under two platforms. -/
def twoPlatformRegistry : Registry :=
  MonitoredChannelModel.upsert
    (MonitoredChannelModel.upsert Registry.empty 1000 1 ⟨some "slack", "C1", some "general"⟩)
    2000 1 ⟨some "asana", "C1", some "tasks"⟩

/-- A table with two pending actions at time 108000 (hour 30): action 1 was created at
hour 0, action 2 at hour 29. -/
def pendingStore : Store :=
  ⟨[{ exRow with status := some "pending", created_at := 0 },
    { exRow with id := 2, status := some "pending", created_at := 104400 }], 3⟩

/-- A reply with one suggestion whose `params` is `false` and whose description is empty. -/
def falsyReply : AxiosReply :=
  .ok (.obj [("suggestions", .arr [.obj [
    ("tool", .str "jira.createIssue"),
    ("params", .bool false),
    ("parameters", .obj [("summary", .str "Login bug")]),
    ("description", .str "")]])])

/-- A reply with two suggestions. -/
def twoSuggestions : AxiosReply :=
  .ok (.obj [("suggestions", .arr [
    .obj [("tool", .str "jira.createIssue"), ("params", .obj [("summary", .str "Login bug")])],
    .obj [("tool", .str "slack.sendMessage"), ("params", .obj [("text", .str "On it")])]])])

/-- A text of 501 code units: 499 times `a`, then U+1F600 as its surrogate pair. -/
def cutPairText : JsText := List.replicate 499 97 ++ [55357, 56832]

/-! ## Lemmas on the table -/

open SuggestedActionModel MonitoringService Controller

theorem find?_map_of_id (f : ActionRow → ActionRow) (hf : ∀ r, (f r).id = r.id)
    (rows : List ActionRow) (id : Nat) :
    (rows.map f).find? (fun r => r.id == id) = (rows.find? (fun r => r.id == id)).map f := by
  induction rows with
  | nil => rfl
  | cons r rest ih =>
    by_cases h : r.id = id
    · simp [List.find?_cons, hf, h]
    · simp [List.find?_cons, hf, h, ih]

theorem findById_eq (st : Store) (id : Nat) :
    findById st id = (st.rows.find? (fun r => r.id == id)).map toAction := by
  unfold findById
  cases st.rows.find? (fun r => r.id == id) <;> rfl

theorem findById_none_of_absent (st : Store) (id : Nat) (h : ∀ r ∈ st.rows, r.id ≠ id) :
    findById st id = none := by
  rw [findById_eq]
  have : st.rows.find? (fun r => r.id == id) = none := by
    rw [List.find?_eq_none]
    intro r hr
    simpa using h r hr
  rw [this]; rfl

theorem findById_id (st : Store) (id : Nat) (a : Action) (h : findById st id = some a) :
    a.id = id := by
  rw [findById_eq] at h
  cases hrow : st.rows.find? (fun r => r.id == id) with
  | none => rw [hrow] at h; cases h
  | some row =>
    rw [hrow] at h
    have hid := List.find?_some hrow
    simp at h hid
    rw [← h]
    exact hid

theorem findById_updateStatus (st : Store) (now : Int) (target id : Nat) (s : String)
    (res : JSValue) :
    findById (updateStatus st now target s res) id =
      (findById st id).map fun a =>
        if a.id = target then
          { a with
            status := some s
            executed_at := if s = "executed" then some now else a.executed_at
            execution_result := if isTruthy res then readJson res else a.execution_result }
        else a := by
  rw [findById_eq, findById_eq]
  unfold updateStatus
  simp only []
  rw [find?_map_of_id _ (by intro r; split <;> rfl)]
  cases st.rows.find? (fun r => r.id == id) with
  | none => rfl
  | some row =>
    simp only [Option.map_some']
    by_cases h : row.id = target
    · by_cases ht : isTruthy res = true <;> simp [toAction, h, ht]
    · simp [toAction, h]

theorem findById_updateParams (st st1 : Store) (target id : Nat) (v : JSValue)
    (h : updateParams st target v = .ok st1) :
    ∃ w, v = some w ∧ findById st1 id =
      (findById st id).map fun a => if a.id = target then { a with edited_params := w } else a := by
  cases v with
  | none => simp [updateParams] at h
  | some w =>
    refine ⟨w, rfl, ?_⟩
    simp only [updateParams, Except.ok.injEq] at h
    subst h
    rw [findById_eq, findById_eq]
    simp only []
    rw [find?_map_of_id _ (by intro r; split <;> rfl)]
    cases st.rows.find? (fun r => r.id == id) with
    | none => rfl
    | some row =>
      simp only [Option.map_some']
      by_cases h : row.id = target <;> simp [toAction, h, readJson]

theorem findById_expireOld (st : Store) (now hours : Int) (id : Nat) :
    findById (expireOld st now hours) id =
      (findById st id).map fun a =>
        if a.status = some "pending" ∧ a.created_at < now - hours * 3600 then
          { a with status := some "expired" }
        else a := by
  rw [findById_eq, findById_eq]
  unfold expireOld
  simp only []
  rw [find?_map_of_id _ (by intro r; split <;> rfl)]
  cases st.rows.find? (fun r => r.id == id) with
  | none => rfl
  | some row =>
    simp only [Option.map_some']
    by_cases h : row.status = some "pending" ∧ row.created_at < now - hours * 3600
    · simp [toAction, h]
    · have h2 : ¬ ((toAction row).status = some "pending" ∧
          (toAction row).created_at < now - hours * 3600) := h
      rw [if_neg h, if_neg h2]

theorem findById_updateAction (st : Store) (caller target id : Nat) (params : JSValue)
    (a : Action) (hstored : findById st id = some a) :
    ∃ b, findById (Controller.updateAction st caller target params).store id = some b ∧
      b.status = a.status ∧ b.execution_result = a.execution_result ∧
      b.executed_at = a.executed_at := by
  unfold Controller.updateAction
  cases ht : findById st target with
  | none => exact ⟨a, hstored, rfl, rfl, rfl⟩
  | some t =>
    by_cases ho : t.user_id = caller
    · simp only [ho, ne_eq, not_true_eq_false, if_false]
      cases hu : updateParams st target params with
      | error e => exact ⟨a, hstored, rfl, rfl, rfl⟩
      | ok st1 =>
        obtain ⟨w, _, hf⟩ := findById_updateParams st st1 target id params hu
        simp only [hf, hstored, Option.map_some']
        by_cases hid : a.id = target
        · simp [hid]
        · simp [hid]
    · simp only [ne_eq, ho, not_false_eq_true, if_true]
      exact ⟨a, hstored, rfl, rfl, rfl⟩

theorem rejectAction_store (st : Store) (now : Int) (caller target : Nat) :
    (Controller.rejectAction st now caller target).store = st ∨
    (∃ t, findById st target = some t ∧ t.user_id = caller) ∧
      (Controller.rejectAction st now caller target).store =
        updateStatus st now target "rejected" none := by
  unfold Controller.rejectAction
  cases ht : findById st target with
  | none => exact Or.inl rfl
  | some t =>
    by_cases ho : t.user_id = caller
    · right; simp [ho]
    · left; simp [ho]

theorem executeAction_store (st : Store) (now : Int) (caller target : Nat)
    (reply : AxiosReply) :
    (MonitoringService.executeAction st now caller target reply).store = st ∨
    (∃ t r, findById st target = some t ∧ t.user_id = caller ∧ reply = .ok r ∧
      (MonitoringService.executeAction st now caller target reply).store =
        updateStatus st now target "executed" (some r)) := by
  unfold MonitoringService.executeAction
  cases ht : findById st target with
  | none => exact Or.inl rfl
  | some t =>
    by_cases ho : t.user_id = caller
    · cases reply with
      | ok r => right; exact ⟨t, r, rfl, ho, rfl, by simp [ho]⟩
      | failed c m d => left; simp [ho]
    · left; simp [ho]

/-- For a missing text and for a text whose trimmed length is below 10, `processEvent`
returns `undefined`, leaves the table as it was and sends no request. -/
theorem processEvent_short_text (st : Store) (now : Int) (userId : Nat)
    (platform channelId : String) (contextText : Option JsText) (metadata : JSValue)
    (reply : AxiosReply) (dbOk : Nat → Bool)
    (hshort : ∀ text, contextText = some text → (jsTrim text).length < 10) :
    MonitoringService.processEvent st now userId platform channelId contextText metadata
      reply dbOk = ⟨none, st, []⟩ := by
  cases contextText with
  | none => rfl
  | some text => simp [MonitoringService.processEvent, hshort text rfl]

/-- No `create` changes the pending count of any user: the row it stores has status
NULL. -/
theorem create_pending_count (st : Store) (now : Int) (dbOk : Bool) (a : CreateArgs)
    (userId : Nat) :
    getPendingCount (create st now dbOk a).2 userId = getPendingCount st userId := by
  unfold create
  split
  · split
    · simp [getPendingCount, List.filter_append]
    · rfl
  · rfl

/-! ## Lemmas on the registry, on `processEvent` and on `findByUserId` -/

theorem forall₂_map_self {α : Type} (R : α → α → Prop) (f : α → α) (l : List α)
    (h : ∀ x ∈ l, R x (f x)) : List.Forall₂ R l (l.map f) := by
  induction l with
  | nil => exact List.Forall₂.nil
  | cons x rest ih =>
    exact List.Forall₂.cons (h x (List.mem_cons_self _ _))
      (ih fun y hy => h y (List.mem_cons_of_mem _ hy))

theorem forall₂_self {α : Type} (R : α → α → Prop) (l : List α) (h : ∀ x ∈ l, R x x) :
    List.Forall₂ R l l := by
  have := forall₂_map_self R id l h
  simpa using this

theorem newRows_channel_ids (now : Int) (userId : Nat) (cs : List ChannelSpec) (id : Nat) :
    (MonitoredChannelModel.newRows now userId cs id).map (·.channel_id) = cs.map (·.channelId) := by
  induction cs generalizing id with
  | nil => rfl
  | cons c rest ih => simp [MonitoredChannelModel.newRows, MonitoredChannelModel.newRow, ih]

theorem newRows_of_platform (now : Int) (userId : Nat) (p : String) (hp : p ≠ "")
    (cs : List ChannelSpec) (id : Nat) :
    ∀ r ∈ MonitoredChannelModel.newRows now userId (cs.map fun c => { c with platform := some p }) id,
      r.user_id = userId ∧ r.is_active = true ∧ r.platform = p := by
  induction cs generalizing id with
  | nil => intro r hr; simp [MonitoredChannelModel.newRows] at hr
  | cons c rest ih =>
    intro r hr
    simp only [List.map_cons, MonitoredChannelModel.newRows, List.mem_cons] at hr
    rcases hr with h | h
    · subst h; simp [MonitoredChannelModel.newRow, orDefault, hp]
    · exact ih (id + 1) r h

theorem replaceAll_rows (reg : Registry) (now : Int) (userId : Nat) (p : String)
    (cs : List ChannelSpec) :
    (MonitoredChannelModel.replaceAll reg now userId p cs).rows =
      (MonitoredChannelModel.deactivateAll reg userId p).rows ++
        MonitoredChannelModel.newRows now userId (cs.map fun c => { c with platform := some p }) reg.nextId := by
  unfold MonitoredChannelModel.replaceAll
  cases cs with
  | nil => simp [MonitoredChannelModel.newRows]
  | cons c rest => simp [MonitoredChannelModel.bulkUpsert, MonitoredChannelModel.insertOrUpdate, MonitoredChannelModel.deactivateAll]

theorem create_rows (st : Store) (now : Int) (dbOk : Bool) (a : CreateArgs) :
    ∃ new, (create st now dbOk a).2.rows = st.rows ++ new ∧
      (create st now dbOk a).2.nextId = st.nextId + new.length ∧
      ∀ r ∈ new, r.source_context = toWellFormed a.sourceContext ∧ r.user_id = a.userId ∧
        st.nextId ≤ r.id ∧ r.id < st.nextId + new.length := by
  unfold create
  split
  · split
    · exact ⟨[_], rfl, rfl, by simp⟩
    · exact ⟨[], by simp, rfl, by simp⟩
  · exact ⟨[], by simp, rfl, by simp⟩

theorem suggestionArgs_ok (userId : Nat) (platform channelId : String) (text : JsText)
    (s : JSON) (args : CreateArgs)
    (h : suggestionArgs userId platform channelId text s = .ok args) :
    args.sourceContext = text.take 500 ∧ args.userId = userId := by
  cases s <;>
    simp [suggestionArgs, JSON.get, bind, Except.bind, pure, Except.pure] at h <;>
    subst h <;> exact ⟨rfl, rfl⟩

theorem storeSuggestions_rows (userId : Nat) (platform channelId : String) (text : JsText)
    (now : Int) (dbOk : Nat → Bool) (items : List JSON) :
    ∀ (index : Nat) (st : Store) (created : List CreatedAction),
    ∃ new,
      (storeSuggestions userId platform channelId text now dbOk items index st created).2.rows =
        st.rows ++ new ∧
      (storeSuggestions userId platform channelId text now dbOk items index st created).2.nextId =
        st.nextId + new.length ∧
      ∀ r ∈ new, r.source_context = toWellFormed (text.take 500) ∧ r.user_id = userId ∧
        st.nextId ≤ r.id ∧ r.id < st.nextId + new.length := by
  induction items with
  | nil => intro index st created; exact ⟨[], by simp [storeSuggestions], rfl, by simp⟩
  | cons s rest ih =>
    intro index st created
    unfold storeSuggestions
    cases hs : suggestionArgs userId platform channelId text s with
    | error e => exact ⟨[], by simp, rfl, by simp⟩
    | ok args =>
      obtain ⟨hctx, huser⟩ := suggestionArgs_ok userId platform channelId text s args hs
      obtain ⟨new1, h1, hn1, hall1⟩ := create_rows st now (dbOk index) args
      cases hc : create st now (dbOk index) args with
      | mk res st1 =>
        rw [hc] at h1 hn1
        simp only at h1 hn1
        simp only [hc]
        cases res with
        | error e =>
          refine ⟨new1, h1, hn1, ?_⟩
          intro r hr
          obtain ⟨a1, a2, a3, a4⟩ := hall1 r hr
          exact ⟨hctx ▸ a1, a2.trans huser, a3, a4⟩
        | ok action =>
          obtain ⟨new2, h2, hn2, hall2⟩ := ih (index + 1) st1 (created ++ [action])
          refine ⟨new1 ++ new2, ?_, ?_, ?_⟩
          · simp only [h2, h1, List.append_assoc]
          · simp only [hn2, hn1, List.length_append]; omega
          · intro r hr
            rw [List.mem_append] at hr
            rcases hr with hr | hr
            · obtain ⟨a1, a2, a3, a4⟩ := hall1 r hr
              refine ⟨hctx ▸ a1, a2.trans huser, a3, ?_⟩
              simp only [List.length_append]; omega
            · obtain ⟨a1, a2, a3, a4⟩ := hall2 r hr
              refine ⟨a1, a2, ?_, ?_⟩
              · omega
              · simp only [List.length_append]; omega

theorem processEvent_rows (st : Store) (now : Int) (userId : Nat)
    (platform channelId : String) (contextText : Option JsText) (metadata : JSValue)
    (reply : AxiosReply) (dbOk : Nat → Bool) :
    ∃ new,
      (processEvent st now userId platform channelId contextText metadata reply dbOk).store.rows =
        st.rows ++ new ∧
      (processEvent st now userId platform channelId contextText metadata reply
        dbOk).store.nextId = st.nextId + new.length ∧
      ∀ r ∈ new, (∃ text, contextText = some text ∧ r.source_context = toWellFormed (text.take 500)) ∧
        r.user_id = userId ∧ st.nextId ≤ r.id ∧ r.id < st.nextId + new.length := by
  have triv : ∃ new : List ActionRow, st.rows = st.rows ++ new ∧
      st.nextId = st.nextId + new.length ∧
      ∀ r ∈ new, (∃ text, contextText = some text ∧ r.source_context = toWellFormed (text.take 500)) ∧
        r.user_id = userId ∧ st.nextId ≤ r.id ∧ r.id < st.nextId + new.length :=
    ⟨[], by simp, rfl, by simp⟩
  unfold processEvent
  cases contextText with
  | none => exact triv
  | some text =>
    simp only
    split
    · exact triv
    · cases reply with
      | failed c m d => exact triv
      | ok data =>
        simp only
        split
        · exact triv
        · split
          · exact triv
          · split
            · exact triv
            · split
              · exact triv
              · rename_i items _
                obtain ⟨new, h1, h2, h3⟩ :=
                  storeSuggestions_rows userId platform channelId text now dbOk items 0 st []
                split <;> rename_i heq <;> rw [heq] at h1 h2 <;>
                  exact ⟨new, h1, h2, fun r hr =>
                    ⟨⟨text, rfl, (h3 r hr).1⟩, (h3 r hr).2⟩⟩

theorem jsOr_some (a : JSValue) (b : JSON) : ∃ p, jsOr a (some b) = some p := by
  unfold jsOr
  cases a with
  | none => exact ⟨b, by simp [isTruthy]⟩
  | some v => by_cases h : isTruthy (some v) = true
              · exact ⟨v, by simp [h]⟩
              · exact ⟨b, by simp [h]⟩

theorem create_ok (st : Store) (now : Int) (a : CreateArgs) (t p d : JSON)
    (ht : a.suggestedTool = some t) (hp : a.suggestedParams = some p)
    (hd : a.description = some d) :
    create st now true a =
      (.ok { id := st.nextId, args := a, status := "pending" },
       { rows := st.rows ++ [{
           id := st.nextId
           user_id := a.userId
           source_platform := a.sourcePlatform
           source_channel := if a.sourceChannel = "" then "" else a.sourceChannel
           source_context := toWellFormed a.sourceContext
           suggested_tool := t
           suggested_params := some p
           description := d
           status := none
           edited_params := none
           created_at := now
           executed_at := none
           execution_result := none }]
         nextId := st.nextId + 1 }) := by
  unfold create
  rw [ht, hp, hd]
  rfl

theorem create_ok_inv (st : Store) (now : Int) (dbOk : Bool) (a : CreateArgs)
    (created : CreatedAction) (h : (create st now dbOk a).1 = .ok created) :
    ∃ t p d, a.suggestedTool = some t ∧ a.suggestedParams = some p ∧
      a.description = some d ∧ dbOk = true ∧
      created = { id := st.nextId, args := a, status := "pending" } := by
  unfold create at h
  split at h
  · rename_i t p d ht hp hd
    split at h
    · rename_i hok
      simp only [Except.ok.injEq] at h
      exact ⟨t, p, d, ht, hp, hd, hok, h.symm⟩
    · simp at h
  · simp at h

theorem storeSuggestions_ok (userId : Nat) (platform channelId : String) (text : JsText)
    (now : Int) (dbOk : Nat → Bool) (hdb : ∀ k, dbOk k = true)
    (objs : List (List (String × JSON))) :
    (∀ f ∈ objs, f.lookup "tool" ≠ none) →
    ∀ (index : Nat) (st : Store) (created0 : List CreatedAction),
    ∃ created new,
      storeSuggestions userId platform channelId text now dbOk (objs.map .obj) index st created0 =
        (.ok (created0 ++ created), { rows := st.rows ++ new, nextId := st.nextId + objs.length }) ∧
      created.length = objs.length ∧ new.length = objs.length ∧
      ∀ i f, objs[i]? = some f →
        created[i]? = some
          { id := st.nextId + i
            args :=
              { userId := userId
                sourcePlatform := platform
                sourceChannel := channelId
                sourceContext := text.take 500
                suggestedTool := f.lookup "tool"
                suggestedParams :=
                  jsOr (jsOr (f.lookup "params") (f.lookup "parameters")) (some (.obj []))
                description :=
                  jsOr (f.lookup "description")
                    (some (.str (jsString (f.lookup "tool") ++ " action"))) }
            status := "pending" } ∧
        ∃ row, new[i]? = some row ∧ row.id = st.nextId + i ∧ row.user_id = userId ∧
          row.source_platform = platform ∧ row.source_channel = channelId ∧
          some row.suggested_tool = f.lookup "tool" ∧
          row.suggested_params =
            jsOr (jsOr (f.lookup "params") (f.lookup "parameters")) (some (.obj [])) ∧
          some row.description =
            jsOr (f.lookup "description")
              (some (.str (jsString (f.lookup "tool") ++ " action"))) := by
  induction objs with
  | nil =>
    intro _ index st created0
    exact ⟨[], [], by simp [storeSuggestions], rfl, rfl, by simp⟩
  | cons f rest ih =>
    intro htool index st created0
    have hrest : ∀ g ∈ rest, g.lookup "tool" ≠ none :=
      fun g hg => htool g (List.mem_cons_of_mem _ hg)
    obtain ⟨t, ht⟩ := Option.ne_none_iff_exists'.mp (htool f (List.mem_cons_self _ _))
    obtain ⟨p, hp⟩ := jsOr_some (jsOr (f.lookup "params") (f.lookup "parameters")) (.obj [])
    obtain ⟨d, hd⟩ := jsOr_some (f.lookup "description")
      (.str (jsString (f.lookup "tool") ++ " action"))
    let args : CreateArgs :=
      { userId := userId
        sourcePlatform := platform
        sourceChannel := channelId
        sourceContext := text.take 500
        suggestedTool := f.lookup "tool"
        suggestedParams :=
          jsOr (jsOr (f.lookup "params") (f.lookup "parameters")) (some (.obj []))
        description :=
          jsOr (f.lookup "description")
            (some (.str (jsString (f.lookup "tool") ++ " action"))) }
    let row : ActionRow :=
      { id := st.nextId
        user_id := userId
        source_platform := platform
        source_channel := if channelId = "" then "" else channelId
        source_context := toWellFormed (text.take 500)
        suggested_tool := t
        suggested_params := some p
        description := d
        status := none
        edited_params := none
        created_at := now
        executed_at := none
        execution_result := none }
    have hargs : suggestionArgs userId platform channelId text (.obj f) = .ok args := rfl
    have hcreate : create st now true args =
        (.ok ⟨st.nextId, args, "pending"⟩, ⟨st.rows ++ [row], st.nextId + 1⟩) :=
      create_ok st now args t p d ht hp hd
    obtain ⟨created, new, hrun, hlen, hnew, hall⟩ :=
      ih hrest (index + 1) ⟨st.rows ++ [row], st.nextId + 1⟩
        (created0 ++ [⟨st.nextId, args, "pending"⟩])
    refine ⟨⟨st.nextId, args, "pending"⟩ :: created, row :: new, ?_, by simp [hlen],
      by simp [hnew], ?_⟩
    · simp only [List.map_cons, storeSuggestions, hargs, hdb, hcreate, hrun]
      simp [Nat.add_assoc, Nat.add_comm 1]
    · intro i g hg
      cases i with
      | zero =>
        simp only [List.getElem?_cons_zero, Option.some.injEq] at hg
        subst hg
        refine ⟨by simp [args], row, by simp, rfl, rfl, rfl, ?_, ht.symm, hp.symm, hd.symm⟩
        by_cases hc : channelId = "" <;> simp [row, hc]
      | succ j =>
        simp only [List.getElem?_cons_succ] at hg
        obtain ⟨h1, r2, h2, h3, h4⟩ := hall j g hg
        refine ⟨?_, r2, by simpa using h2, ?_, h4⟩
        · simp only [List.getElem?_cons_succ, h1]
          simp [Nat.add_assoc, Nat.add_comm 1]
        · rw [h3]; simp [Nat.add_assoc, Nat.add_comm 1]

theorem guard_passes (text : JsText) (hlong : 10 ≤ (jsTrim text).length) :
    ¬ (text = [] ∨ (jsTrim text).length < 10) := by
  intro h
  rcases h with h | h
  · subst h
    simp [jsTrim] at hlong
  · omega

theorem storeSuggestions_fails (userId : Nat) (platform channelId : String) (text : JsText)
    (now : Int) (dbOk : Nat → Bool) (items : List JSON) :
    ∀ (index : Nat) (st : Store) (created : List CreatedAction),
    (∃ k, k < items.length ∧ dbOk (index + k) = false) →
    ∃ e, (storeSuggestions userId platform channelId text now dbOk items index st created).1 =
      .error e := by
  induction items with
  | nil => intro index st created ⟨k, hk, _⟩; simp at hk
  | cons s rest ih =>
    intro index st created ⟨k, hk, hfail⟩
    unfold storeSuggestions
    cases hs : suggestionArgs userId platform channelId text s with
    | error e => exact ⟨e, rfl⟩
    | ok args =>
      simp only
      cases hc : create st now (dbOk index) args with
      | mk res st1 =>
        cases res with
        | error e => exact ⟨e, rfl⟩
        | ok action =>
          simp only
          have hres : (create st now (dbOk index) args).1 = .ok action := by rw [hc]
          obtain ⟨_, _, _, _, _, _, hok, _⟩ := create_ok_inv st now _ args action hres
          cases k with
          | zero => simp [hok] at hfail
          | succ j =>
            apply ih (index + 1) st1 (created ++ [action])
            refine ⟨j, by simpa using hk, ?_⟩
            rw [← hfail]; congr 1; omega

theorem mem_findByUserId (st : Store) (userId : Nat) (status : Option String)
    (limit : Option Nat) (x : Action)
    (h : x ∈ SuggestedActionModel.findByUserId st userId status limit) :
    ∃ r ∈ st.rows, x = toAction r ∧ r.user_id = userId := by
  unfold SuggestedActionModel.findByUserId at h
  rw [List.mem_map] at h
  obtain ⟨r, hr, hx⟩ := h
  have h1 := List.mem_of_mem_take hr
  rw [(List.perm_insertionSort _ _).mem_iff, List.mem_filter] at h1
  refine ⟨r, h1.1, hx.symm, ?_⟩
  have h2 := h1.2
  simp only [Bool.and_eq_true, beq_iff_eq] at h2
  exact h2.1

theorem findByUserId_mem (st : Store) (userId : Nat) (r : ActionRow) (hr : r ∈ st.rows)
    (hu : r.user_id = userId) :
    toAction r ∈ SuggestedActionModel.findByUserId st userId none (some st.rows.length) := by
  unfold SuggestedActionModel.findByUserId
  rw [List.mem_map]
  refine ⟨r, ?_, rfl⟩
  rw [List.take_of_length_le]
  · rw [(List.perm_insertionSort _ _).mem_iff, List.mem_filter]
    exact ⟨hr, by simp [hu]⟩
  · rw [List.length_insertionSort]
    exact List.length_filter_le _ _

theorem fresh_of_map (st : Store) (f : ActionRow → ActionRow) (hf : ∀ r, (f r).id = r.id)
    (h : ∀ r ∈ st.rows, r.id < st.nextId) :
    ∀ r ∈ st.rows.map f, r.id < st.nextId := by
  intro r hr
  rw [List.mem_map] at hr
  obtain ⟨r0, h0, rfl⟩ := hr
  rw [hf]
  exact h r0 h0

theorem apply_fresh (st : Store) (op : Op) (h : ∀ r ∈ st.rows, r.id < st.nextId) :
    ∀ r ∈ (op.apply st).rows, r.id < (op.apply st).nextId := by
  cases op with
  | processEvent now userId platform channelId contextText metadata reply dbOk =>
    obtain ⟨new, h1, h2, h3⟩ :=
      processEvent_rows st now userId platform channelId contextText metadata reply dbOk
    intro r hr
    simp only [Op.apply] at hr ⊢
    rw [h1, List.mem_append] at hr
    rw [h2]
    rcases hr with hr | hr
    · have := h r hr; omega
    · exact (h3 r hr).2.2.2
  | updateAction caller id params =>
    simp only [Op.apply, Controller.updateAction]
    cases findById st id with
    | none => exact h
    | some a =>
      by_cases ho : a.user_id = caller
      · cases params with
        | none => simpa [ho, updateParams] using h
        | some v =>
          simp only [ho, ne_eq, not_true_eq_false, if_false, updateParams]
          exact fresh_of_map st _ (by intro r; split <;> rfl) h
      · simpa [ho] using h
  | rejectAction now caller id =>
    simp only [Op.apply]
    rcases rejectAction_store st now caller id with e | ⟨_, e⟩
    · rw [e]; exact h
    · rw [e]; exact fresh_of_map st _ (by intro r; split <;> rfl) h
  | executeAction now userId actionId reply =>
    simp only [Op.apply]
    rcases executeAction_store st now userId actionId reply with e | ⟨_, _, _, _, _, e⟩
    · rw [e]; exact h
    · rw [e]; exact fresh_of_map st _ (by intro r; split <;> rfl) h
  | expireOld now hoursOld =>
    simp only [Op.apply]
    exact fresh_of_map st _ (by intro r; split <;> rfl) h

/-- In every reachable table the ids are below the AUTO_INCREMENT counter. -/
theorem reachable_fresh (st : Store) (h : Reachable st) : ∀ r ∈ st.rows, r.id < st.nextId := by
  obtain ⟨ops, rfl⟩ := h
  have key : ∀ (ops : List Op) (s : Store), (∀ r ∈ s.rows, r.id < s.nextId) →
      ∀ r ∈ (run ops s).rows, r.id < (run ops s).nextId := by
    intro ops
    induction ops with
    | nil => intro s hs; exact hs
    | cons op rest ih =>
      intro s hs
      exact ih (op.apply s) (apply_fresh s op hs)
  exact key ops Store.empty (by simp [Store.empty])

/-! ## Lemmas on the orderings and on the remaining handlers -/

theorem sorted_newest_first (l : List ActionRow) :
    List.Pairwise (fun a b : ActionRow => a.created_at ≥ b.created_at)
      (l.insertionSort (fun a b => a.created_at ≥ b.created_at)) := by
  haveI : IsTotal ActionRow (fun a b => a.created_at ≥ b.created_at) :=
    ⟨fun a b => le_total b.created_at a.created_at⟩
  haveI : IsTrans ActionRow (fun a b => a.created_at ≥ b.created_at) :=
    ⟨fun a b c hab hbc => le_trans hbc hab⟩
  exact List.sorted_insertionSort _ l

theorem sorted_by_name (l : List ChannelRow) :
    List.Pairwise (fun a b : ChannelRow => a.channel_name.toList ≤ b.channel_name.toList)
      (l.insertionSort (fun a b => a.channel_name.toList ≤ b.channel_name.toList)) := by
  haveI : IsTotal ChannelRow (fun a b => a.channel_name.toList ≤ b.channel_name.toList) :=
    ⟨fun a b => le_total a.channel_name.toList b.channel_name.toList⟩
  haveI : IsTrans ChannelRow (fun a b => a.channel_name.toList ≤ b.channel_name.toList) :=
    ⟨fun a b c hab hbc => le_trans hab hbc⟩
  exact List.sorted_insertionSort _ l

theorem newest_split (p : ActionRow → Bool) (rows : List ActionRow) (n : Nat) :
    ∃ newest older,
      (((rows.filter p).insertionSort (fun a b => a.created_at ≥ b.created_at)).take n).map
        toAction = newest.map toAction ∧
      List.Perm (newest ++ older) (rows.filter p) ∧
      ∀ x ∈ newest, ∀ y ∈ older, x.created_at ≥ y.created_at := by
  have hs := sorted_newest_first (rows.filter p)
  have hp := List.perm_insertionSort (fun a b : ActionRow => a.created_at ≥ b.created_at)
    (rows.filter p)
  generalize List.insertionSort (fun a b : ActionRow => a.created_at ≥ b.created_at)
    (rows.filter p) = sorted at hs hp ⊢
  refine ⟨sorted.take n, sorted.drop n, rfl, ?_, ?_⟩
  · rw [List.take_append_drop]
    exact hp
  · rw [← List.take_append_drop n sorted, List.pairwise_append] at hs
    exact hs.2.2

theorem findByUserId_selects (st : Store) (userId : Nat) (status : Option String)
    (limit : Option Nat) :
    SuggestedActionModel.findByUserId st userId status limit =
      (((st.rows.filter (SuggestedActionModel.selects userId status)).insertionSort
        (fun a b => a.created_at ≥ b.created_at)).take (limit.getD 50)).map toAction := rfl

theorem deleteById_absent (reg : Registry) (id : Nat) (habsent : ∀ r ∈ reg.rows, r.id ≠ id) :
    MonitoredChannelModel.deleteById reg id = reg := by
  unfold MonitoredChannelModel.deleteById
  have : (reg.rows.map fun r => if r.id = id then { r with is_active := false } else r) =
      reg.rows := by
    conv_rhs => rw [← List.map_id reg.rows]
    apply List.map_congr_left
    intro r hr
    simp [habsent r hr]
  rw [this]

theorem executeAction_failed_error (st : Store) (now : Int) (userId actionId : Nat)
    (code : Option String) (message : String) (responseData : Option JSON) :
    ∃ e, (MonitoringService.executeAction st now userId actionId
      (.failed code message responseData)).result = .error e := by
  unfold MonitoringService.executeAction
  cases findById st actionId with
  | none => exact ⟨_, rfl⟩
  | some a =>
    by_cases h : a.user_id = userId <;> simp [h]

theorem updateActionWithFaults_none (st : Store) (caller id : Nat) (params : JSValue) :
    Controller.updateActionWithFaults st caller id params none none =
      Controller.updateAction st caller id params := by
  unfold Controller.updateActionWithFaults Controller.updateAction
  rfl

theorem rejectActionWithFaults_none (st : Store) (now : Int) (caller id : Nat) :
    Controller.rejectActionWithFaults st now caller id none none =
      Controller.rejectAction st now caller id := by
  unfold Controller.rejectActionWithFaults Controller.rejectAction
  rfl

theorem toWellFormed_length (t : JsText) : (toWellFormed t).length = t.length := by
  induction t using toWellFormed.induct with
  | case1 => rfl
  | case2 u => rfl
  | case3 u v rest h ih => simp [toWellFormed, h, ih]
  | case4 u v rest h ih => simp [toWellFormed, h, ih]

theorem toWellFormed_of_no_surrogate (t : JsText)
    (h : ∀ u ∈ t, isHighSurrogate u = false ∧ isLowSurrogate u = false) :
    toWellFormed t = t := by
  induction t using toWellFormed.induct with
  | case1 => rfl
  | case2 u => simp [toWellFormed, h u (by simp)]
  | case3 u v rest hp ih =>
    have := (h u (by simp)).1
    simp [this] at hp
  | case4 u v rest hp ih =>
    have h1 := h u (by simp)
    have ih2 := ih (fun w hw => h w (List.mem_cons_of_mem _ hw))
    simp [toWellFormed, h1, ih2]

/-! ## The claims -/

/-- C1: ownership invariant. When the id refers to a stored action `a` and the caller
`u` is not its owner, `updateAction` and `rejectAction` respond 403 "Unauthorized" and
`executeAction` throws "Unauthorized"; none of them sends a request to the reasoning
service and the table is left as it was. -/
theorem C1_ownership_invariant (st : Store) (now : Int) (id u : Nat) (a : Action)
    (params : JSValue) (reply : AxiosReply)
    (hstored : findById st id = some a) (hother : u ≠ a.user_id) :
    Controller.updateAction st u id params = ⟨.json 403 false "Unauthorized", st, []⟩ ∧
    Controller.rejectAction st now u id = ⟨.json 403 false "Unauthorized", st, []⟩ ∧
    MonitoringService.executeAction st now u id reply = ⟨.error "Unauthorized", st, []⟩ := by
  have h : a.user_id ≠ u := fun e => hother e.symm
  simp [Controller.updateAction, Controller.rejectAction, MonitoringService.executeAction,
    hstored, h]

/-- C1 at the scenario's action (owner 1) and caller 2. -/
theorem C1_ownership_invariant_witness :
    findById exStore 1 = some (toAction exRow) ∧ 2 ≠ (toAction exRow).user_id ∧
    Controller.updateAction exStore 2 1 (some (.obj [])) =
      ⟨.json 403 false "Unauthorized", exStore, []⟩ ∧
    Controller.rejectAction exStore 2000 2 1 = ⟨.json 403 false "Unauthorized", exStore, []⟩ ∧
    MonitoringService.executeAction exStore 2000 2 1 (.ok (.obj [])) =
      ⟨.error "Unauthorized", exStore, []⟩ :=
  ⟨by decide, by decide,
   C1_ownership_invariant exStore 2000 1 2 (toAction exRow) (some (.obj [])) (.ok (.obj []))
     (by decide) (by decide)⟩

/-- C2 as stated fails: the rejected action of `rejectedStore` (a reachable table)
becomes executed by a successful execute of its owner, and the executed action of
`executedStore` becomes rejected by a reject of its owner. -/
theorem C2_rejected_action_becomes_executed :
    Reachable rejectedStore ∧
    statusOf rejectedStore 1 = some (some "rejected") ∧
    statusOf (MonitoringService.executeAction rejectedStore 3000 1 1
      (.ok (.obj [("issueKey", .str "PROJ-42")]))).store 1 = some (some "executed") ∧
    Reachable executedStore ∧
    statusOf executedStore 1 = some (some "executed") ∧
    statusOf (Controller.rejectAction executedStore 3000 1 1).store 1 = some (some "rejected") :=
  ⟨⟨_, rfl⟩, by decide, by decide, ⟨_, rfl⟩, by decide, by decide⟩

/-- C2, amended: an action `a` whose status is not pending keeps its status under an
edit and under `expireOld`, under a reject or an execute that targets another action or
comes from a caller who is not the owner, and under an execute whose request fails;
a reject by the owner sets the status to rejected and a successful execute by the owner
sets it to executed, whatever the status was. -/
theorem C2_status_transitions (st : Store) (now : Int) (id target caller : Nat) (a : Action)
    (params : JSValue) (hours : Int) (reply : AxiosReply)
    (hstored : findById st id = some a) (hstatus : a.status ≠ some "pending") :
    statusOf (Controller.updateAction st caller target params).store id = some a.status ∧
    statusOf (expireOld st now hours) id = some a.status ∧
    (¬ (target = id ∧ caller = a.user_id) →
      statusOf (Controller.rejectAction st now caller target).store id = some a.status ∧
      statusOf (MonitoringService.executeAction st now caller target reply).store id =
        some a.status) ∧
    (∀ code message data,
      statusOf (MonitoringService.executeAction st now caller target
        (.failed code message data)).store id = some a.status) ∧
    statusOf (Controller.rejectAction st now a.user_id id).store id = some (some "rejected") ∧
    (∀ r, statusOf (MonitoringService.executeAction st now a.user_id id (.ok r)).store id =
      some (some "executed")) := by
  have hid := findById_id st id a hstored
  refine ⟨?_, ?_, ?_, ?_, ?_, ?_⟩
  · obtain ⟨b, hb, hs, _, _⟩ := findById_updateAction st caller target id params a hstored
    simp [statusOf, hb, hs]
  · simp [statusOf, findById_expireOld, hstored, hstatus]
  · intro hne
    constructor
    · rcases rejectAction_store st now caller target with h | ⟨⟨t, ht, ho⟩, h⟩
      · simp [statusOf, h, hstored]
      · have : a.id ≠ target := by
          intro e
          apply hne
          have e2 : target = id := by rw [← e, hid]
          subst e2
          rw [hstored] at ht
          cases ht
          exact ⟨rfl, ho.symm⟩
        simp [statusOf, h, findById_updateStatus, hstored, this]
    · rcases executeAction_store st now caller target reply with h | ⟨t, r, ht, ho, _, h⟩
      · simp [statusOf, h, hstored]
      · have : a.id ≠ target := by
          intro e
          apply hne
          have e2 : target = id := by rw [← e, hid]
          subst e2
          rw [hstored] at ht
          cases ht
          exact ⟨rfl, ho.symm⟩
        simp [statusOf, h, findById_updateStatus, hstored, this]
  · intro code message data
    rcases executeAction_store st now caller target (.failed code message data) with
      h | ⟨t, r, _, _, hr, _⟩
    · simp [statusOf, h, hstored]
    · cases hr
  · simp [statusOf, Controller.rejectAction, hstored, findById_updateStatus, hid]
  · intro r
    simp [statusOf, MonitoringService.executeAction, hstored, findById_updateStatus, hid]

/-- C2, amended, at the rejected action of `rejectedStore`: an edit by the owner and
`expireOld(24)` run two days later leave it rejected. -/
theorem C2_status_transitions_witness :
    findById rejectedStore 1 = some (toAction { exRow with status := some "rejected" }) ∧
    (toAction { exRow with status := some "rejected" }).status ≠ some "pending" ∧
    statusOf (Controller.updateAction rejectedStore 1 1 (some (.obj []))).store 1 =
      some (some "rejected") ∧
    statusOf (expireOld rejectedStore 200000 24) 1 = some (some "rejected") :=
  ⟨by decide, by decide,
   (C2_status_transitions rejectedStore 3000 1 1 1
     (toAction { exRow with status := some "rejected" })
     (some (.obj [])) 24 (.ok .null) (by decide) (by decide)).1,
   (C2_status_transitions rejectedStore 200000 1 1 1
     (toAction { exRow with status := some "rejected" })
     (some (.obj [])) 24 (.ok .null) (by decide) (by decide)).2.1⟩

/-- C3 as stated fails: the action of `executedStore` was executed at time 2000 with
result `{issueKey: "PROJ-42"}`; a second execute by its owner at time 3000 replaces the
result by the new response and stamps `executed_at` again. -/
theorem C3_second_execute_overwrites :
    Reachable executedStore ∧
    outcomeOf executedStore 1 = some (.obj [("issueKey", .str "PROJ-42")], some 2000) ∧
    outcomeOf (MonitoringService.executeAction executedStore 3000 1 1
      (.ok (.obj [("issueKey", .str "PROJ-43")]))).store 1 =
      some (.obj [("issueKey", .str "PROJ-43")], some 3000) :=
  ⟨⟨_, rfl⟩, by decide, by decide⟩

/-- C3, amended: `execution_result` and `executed_at` of a stored action `a` are left as
they were by an edit, a reject and `expireOld`, by an execute that targets another
action or comes from a caller who is not the owner, and by an execute whose request
fails; a successful execute by the owner stamps `executed_at` with the current time and
replaces `execution_result` by the response when the response is truthy. -/
theorem C3_outcome_fields (st : Store) (now : Int) (id target caller : Nat) (a : Action)
    (params : JSValue) (hours : Int) (reply : AxiosReply)
    (hstored : findById st id = some a) :
    outcomeOf (Controller.updateAction st caller target params).store id =
      some (a.execution_result, a.executed_at) ∧
    outcomeOf (Controller.rejectAction st now caller target).store id =
      some (a.execution_result, a.executed_at) ∧
    outcomeOf (expireOld st now hours) id = some (a.execution_result, a.executed_at) ∧
    (¬ (target = id ∧ caller = a.user_id) →
      outcomeOf (MonitoringService.executeAction st now caller target reply).store id =
        some (a.execution_result, a.executed_at)) ∧
    (∀ code message data,
      outcomeOf (MonitoringService.executeAction st now caller target
        (.failed code message data)).store id = some (a.execution_result, a.executed_at)) ∧
    (∀ r, outcomeOf (MonitoringService.executeAction st now a.user_id id (.ok r)).store id =
      some (if r.truthy then r else a.execution_result, some now)) := by
  have hid := findById_id st id a hstored
  refine ⟨?_, ?_, ?_, ?_, ?_, ?_⟩
  · obtain ⟨b, hb, _, hr, he⟩ := findById_updateAction st caller target id params a hstored
    simp [outcomeOf, hb, hr, he]
  · rcases rejectAction_store st now caller target with h | ⟨_, h⟩
    · simp [outcomeOf, h, hstored]
    · by_cases e : a.id = target <;>
        simp [outcomeOf, h, findById_updateStatus, hstored, e, isTruthy]
  · by_cases e : a.status = some "pending" ∧ a.created_at < now - hours * 3600 <;>
      simp [outcomeOf, findById_expireOld, hstored, e]
  · intro hne
    rcases executeAction_store st now caller target reply with h | ⟨t, r, ht, ho, _, h⟩
    · simp [outcomeOf, h, hstored]
    · have : a.id ≠ target := by
        intro e
        apply hne
        have e2 : target = id := by rw [← e, hid]
        subst e2
        rw [hstored] at ht
        cases ht
        exact ⟨rfl, ho.symm⟩
      simp [outcomeOf, h, findById_updateStatus, hstored, this]
  · intro code message data
    rcases executeAction_store st now caller target (.failed code message data) with
      h | ⟨t, r, _, _, hr, _⟩
    · simp [outcomeOf, h, hstored]
    · cases hr
  · intro r
    by_cases hr : r.truthy = true <;>
      simp [outcomeOf, MonitoringService.executeAction, hstored, findById_updateStatus, hid,
        isTruthy, readJson, hr]

/-- C3, amended, at the executed action of `executedStore`: a reject by the owner keeps
the result and the time of execution, a second successful execute replaces both. -/
theorem C3_outcome_fields_witness :
    findById executedStore 1 = some (toAction { exRow with
      status := some "executed", executed_at := some 2000,
      execution_result := some (.obj [("issueKey", .str "PROJ-42")]) }) ∧
    outcomeOf (Controller.rejectAction executedStore 3000 1 1).store 1 =
      some (.obj [("issueKey", .str "PROJ-42")], some 2000) ∧
    outcomeOf (MonitoringService.executeAction executedStore 3000 1 1
      (.ok (.obj [("issueKey", .str "PROJ-43")]))).store 1 =
      some (.obj [("issueKey", .str "PROJ-43")], some 3000) :=
  ⟨by decide,
   (C3_outcome_fields executedStore 3000 1 1 1 (toAction { exRow with
      status := some "executed", executed_at := some 2000,
      execution_result := some (.obj [("issueKey", .str "PROJ-42")]) })
     none 24 (.ok .null) (by decide)).2.1,
   (C3_outcome_fields executedStore 3000 1 1 1 (toAction { exRow with
      status := some "executed", executed_at := some 2000,
      execution_result := some (.obj [("issueKey", .str "PROJ-42")]) })
     none 24 (.ok .null) (by decide)).2.2.2.2.2 (.obj [("issueKey", .str "PROJ-43")])⟩

/-- C4 as stated fails: the action of `executedStore` has status executed and no edited
parameters; an edit by its owner writes `edited_params` all the same. -/
theorem C4_edit_after_execution :
    Reachable executedStore ∧
    statusOf executedStore 1 = some (some "executed") ∧
    (findById executedStore 1).map (·.edited_params) = some .null ∧
    (findById executedStore 1).map (·.user_id) = some 1 ∧
    (findById (Controller.updateAction executedStore 1 1
      (some (.obj [("summary", .str "Changed")]))).store 1).map (·.edited_params) =
      some (.obj [("summary", .str "Changed")]) :=
  ⟨⟨_, rfl⟩, by decide, by decide, by decide, by decide⟩

/-- C4, amended: `edited_params` is written whatever the status is. For every stored
action `a`, an edit by its owner that carries a value `v` for `params` responds success
and afterwards `findById` returns `a` with `edited_params` equal to `v` and every other
field as before. -/
theorem C4_edit_ignores_status (st : Store) (id : Nat) (a : Action) (v : JSON)
    (hstored : findById st id = some a) :
    (Controller.updateAction st a.user_id id (some v)).response =
      .json 200 true "Action parameters updated" ∧
    findById (Controller.updateAction st a.user_id id (some v)).store id =
      some { a with edited_params := v } := by
  have hid := findById_id st id a hstored
  have hu : updateParams st id (some v) = .ok { st with rows := st.rows.map fun r =>
      if r.id = id then { r with edited_params := some v } else r } := rfl
  obtain ⟨w, hw, hf⟩ := findById_updateParams st _ id id (some v) hu
  cases hw
  constructor
  · simp [Controller.updateAction, hstored, hu]
  · simp only [Controller.updateAction, hstored, ne_eq, not_true_eq_false, if_false, hu]
    rw [hf, hstored]
    simp [hid]

/-- C4, amended, at the executed action of `executedStore`. -/
theorem C4_edit_ignores_status_witness :
    findById executedStore 1 = some (toAction { exRow with
      status := some "executed", executed_at := some 2000,
      execution_result := some (.obj [("issueKey", .str "PROJ-42")]) }) ∧
    findById (Controller.updateAction executedStore 1 1
      (some (.obj [("summary", .str "Changed")]))).store 1 =
      some (toAction { exRow with
        status := some "executed", executed_at := some 2000,
        execution_result := some (.obj [("issueKey", .str "PROJ-42")]),
        edited_params := some (.obj [("summary", .str "Changed")]) }) :=
  ⟨by decide,
   (C4_edit_ignores_status executedStore 1 (toAction { exRow with
      status := some "executed", executed_at := some 2000,
      execution_result := some (.obj [("issueKey", .str "PROJ-42")]) })
     (.obj [("summary", .str "Changed")]) (by decide)).2⟩

/-- C5 fails on the code: `create` returns an object with status "pending", but the
INSERT names no status and the column has no default, so the stored row has status
NULL: `findById` reports no status and `getPendingCount` does not count the row. -/
theorem C5_created_action_is_not_pending :
    (create Store.empty 1000 true exArgs).1 =
      .ok { id := 1, args := exArgs, status := "pending" } ∧
    statusOf (create Store.empty 1000 true exArgs).2 1 = some none ∧
    (findById (create Store.empty 1000 true exArgs).2 1).map (·.executed_at) = some none ∧
    getPendingCount (create Store.empty 1000 true exArgs).2 1 = 0 := by
  decide

/-- C6 fails on the code: for the text "hi", and for a missing text, `processEvent`
sends no request and writes nothing, but it returns `undefined`, not an empty
sequence. -/
theorem C6_short_text_returns_undefined :
    MonitoringService.processEvent Store.empty 1000 1 "slack" "C1" (some (utf16 "hi")) none
      exReply (fun _ => true) = ⟨none, Store.empty, []⟩ ∧
    (MonitoringService.processEvent Store.empty 1000 1 "slack" "C1" (some (utf16 "hi")) none
      exReply (fun _ => true)).result ≠ some [] ∧
    MonitoringService.processEvent Store.empty 1000 1 "slack" "C1" none none
      exReply (fun _ => true) = ⟨none, Store.empty, []⟩ := by
  decide

/-- C7 as stated fails: when the execute endpoint answers `false`, `executeAction`
returns success with result `false`, but `execution_result` of the stored action stays
null. -/
theorem C7_falsy_response_not_stored :
    (findById exStore 1).map (·.user_id) = some 1 ∧
    (MonitoringService.executeAction exStore 2000 1 1 (.ok (.bool false))).result =
      .ok { success := true, result := .bool false } ∧
    (findById (MonitoringService.executeAction exStore 2000 1 1 (.ok (.bool false))).store 1).map
      (·.execution_result) = some .null ∧
    (findById (MonitoringService.executeAction exStore 2000 1 1 (.ok (.bool false))).store 1).map
      (·.execution_result) ≠ some (.bool false) := by
  decide

/-- C7, amended: for every stored action `a` and every response body `r`, an execute by
the owner returns `{success: true, result: r}`, and afterwards `findById` returns `a`
with status executed, `executed_at` the current time, and `execution_result` equal to
`r` when `r` is truthy and as before when `r` is falsy. -/
theorem C7_successful_execution (st : Store) (now : Int) (id : Nat) (a : Action) (r : JSON)
    (hstored : findById st id = some a) :
    (MonitoringService.executeAction st now a.user_id id (.ok r)).result =
      .ok { success := true, result := r } ∧
    findById (MonitoringService.executeAction st now a.user_id id (.ok r)).store id =
      some { a with
        status := some "executed"
        executed_at := some now
        execution_result := if r.truthy then r else a.execution_result } := by
  have hid := findById_id st id a hstored
  by_cases hr : r.truthy = true <;>
    simp [MonitoringService.executeAction, hstored, findById_updateStatus, hid, isTruthy,
      readJson, hr]

/-- C7, amended, at the scenario's action and the response `{issueKey: "PROJ-42"}`. -/
theorem C7_successful_execution_witness :
    findById exStore 1 = some (toAction exRow) ∧
    findById (MonitoringService.executeAction exStore 2000 1 1
      (.ok (.obj [("issueKey", .str "PROJ-42")]))).store 1 =
      some (toAction { exRow with
        status := some "executed", executed_at := some 2000,
        execution_result := some (.obj [("issueKey", .str "PROJ-42")]) }) :=
  ⟨by decide,
   (C7_successful_execution exStore 2000 1 (toAction exRow)
     (.obj [("issueKey", .str "PROJ-42")]) (by decide)).2⟩

/-- C8: a failed execution is atomic. When the request to the execute endpoint fails,
`executeAction` throws and the table is exactly as before; for an action owned by the
caller the request was sent once and the message of the error is the `detail` of the
failed response when that is truthy, else the message of the transport error. -/
theorem C8_failed_execution_is_atomic (st : Store) (now : Int) (userId actionId : Nat)
    (code : Option String) (message : String) (responseData : Option JSON) :
    (MonitoringService.executeAction st now userId actionId
        (.failed code message responseData)).store = st ∧
    (∃ e, (MonitoringService.executeAction st now userId actionId
        (.failed code message responseData)).result = .error e) ∧
    (∀ a, findById st actionId = some a → a.user_id = userId →
      (MonitoringService.executeAction st now userId actionId
        (.failed code message responseData)).result =
        .error (if isTruthy (errorDetail responseData) then jsString (errorDetail responseData)
                else message) ∧
      (MonitoringService.executeAction st now userId actionId
        (.failed code message responseData)).calls.length = 1) := by
  unfold MonitoringService.executeAction
  cases findById st actionId with
  | none => simp
  | some a =>
    by_cases h : a.user_id = userId <;> simp [h]

/-- C8 at the scenario's action: a timeout leaves the table as it was and surfaces the
transport message; an error response with a `detail` surfaces the detail. -/
theorem C8_failed_execution_is_atomic_witness :
    (MonitoringService.executeAction exStore 2000 1 1
      (.failed (some "ECONNABORTED") "timeout of 30000ms exceeded" none)) =
      ⟨.error "timeout of 30000ms exceeded", exStore,
       [AgentCall.executeAction 1 (.str "jira.createIssue")
         (.obj [("summary", .str "Login bug")])]⟩ ∧
    (MonitoringService.executeAction exStore 2000 1 1
      (.failed none "Request failed with status code 500"
        (some (.obj [("detail", .str "Jira is not connected")])))).result =
      .error "Jira is not connected" :=
  ⟨by decide,
   ((C8_failed_execution_is_atomic exStore 2000 1 1 none "Request failed with status code 500"
      (some (.obj [("detail", .str "Jira is not connected")]))).2.2
      (toAction exRow) (by decide) (by decide)).1⟩

/-- C9: for an id that no row of the table carries and every caller, `updateAction` and
`rejectAction` respond 404 "Action not found" and `executeAction` throws "Action not
found"; none of them writes to the table or sends a request to the reasoning service. -/
theorem C9_missing_action (st : Store) (now : Int) (id caller : Nat) (params : JSValue)
    (reply : AxiosReply) (habsent : ∀ r ∈ st.rows, r.id ≠ id) :
    Controller.updateAction st caller id params =
      ⟨.json 404 false "Action not found", st, []⟩ ∧
    Controller.rejectAction st now caller id = ⟨.json 404 false "Action not found", st, []⟩ ∧
    MonitoringService.executeAction st now caller id reply =
      ⟨.error "Action not found", st, []⟩ := by
  have h := findById_none_of_absent st id habsent
  simp [Controller.updateAction, Controller.rejectAction, MonitoringService.executeAction, h]

/-- C9 at the scenario's table, whose only row has id 1, and the id 7. -/
theorem C9_missing_action_witness :
    (∀ r ∈ exStore.rows, r.id ≠ 7) ∧
    Controller.updateAction exStore 1 7 (some (.obj [])) =
      ⟨.json 404 false "Action not found", exStore, []⟩ ∧
    Controller.rejectAction exStore 2000 1 7 =
      ⟨.json 404 false "Action not found", exStore, []⟩ ∧
    MonitoringService.executeAction exStore 2000 1 7 (.ok (.obj [])) =
      ⟨.error "Action not found", exStore, []⟩ :=
  ⟨by decide, C9_missing_action exStore 2000 7 1 (some (.obj [])) (.ok (.obj [])) (by decide)⟩

/-- C10 as stated fails: after the owner's edit with `params` false, the stored
`edited_params` is `false`, which is present and not null, yet `executeAction` sends
the suggested parameters. -/
theorem C10_falsy_edit_not_sent :
    Reachable editedFalseStore ∧
    editedFalseStore.rows.map (fun r => (r.user_id, r.edited_params, r.suggested_params)) =
      [(1, some (.bool false), some (.obj [("summary", .str "Login bug")]))] ∧
    (findById editedFalseStore 1).map (·.edited_params) = some (.bool false) ∧
    (MonitoringService.executeAction editedFalseStore 2000 1 1 (.ok .null)).calls =
      [AgentCall.executeAction 1 (.str "jira.createIssue")
        (.obj [("summary", .str "Login bug")])] :=
  ⟨⟨_, rfl⟩, by decide, by decide, by decide⟩

/-- C10, amended: for every stored action `a`, an execute by the owner sends exactly one
request, carrying the caller's id, the action's `suggested_tool`, and as parameters
`edited_params` when that is truthy and `suggested_params` otherwise; every object, also
an empty one, is sent, and a null `edited_params` yields the suggested parameters. -/
theorem C10_parameter_resolution (st : Store) (now : Int) (id : Nat) (a : Action)
    (reply : AxiosReply) (hstored : findById st id = some a) :
    (MonitoringService.executeAction st now a.user_id id reply).calls =
      [AgentCall.executeAction a.user_id a.suggested_tool
        (if a.edited_params.truthy then a.edited_params else a.suggested_params)] ∧
    (∀ fields, a.edited_params = .obj fields →
      (MonitoringService.executeAction st now a.user_id id reply).calls =
        [AgentCall.executeAction a.user_id a.suggested_tool (.obj fields)]) ∧
    (a.edited_params = .null →
      (MonitoringService.executeAction st now a.user_id id reply).calls =
        [AgentCall.executeAction a.user_id a.suggested_tool a.suggested_params]) := by
  have h : (MonitoringService.executeAction st now a.user_id id reply).calls =
      [AgentCall.executeAction a.user_id a.suggested_tool
        (if a.edited_params.truthy then a.edited_params else a.suggested_params)] := by
    cases reply <;> simp [MonitoringService.executeAction, hstored]
  refine ⟨h, ?_, ?_⟩
  · intro fields hf
    rw [h, hf]; rfl
  · intro hn
    rw [h, hn]; rfl

/-- C10, amended, at the scenario's action after an edit to `{summary: "Changed"}`. -/
theorem C10_parameter_resolution_witness :
    findById (Controller.updateAction exStore 1 1
      (some (.obj [("summary", .str "Changed")]))).store 1 =
      some (toAction { exRow with edited_params := some (.obj [("summary", .str "Changed")]) }) ∧
    (MonitoringService.executeAction (Controller.updateAction exStore 1 1
      (some (.obj [("summary", .str "Changed")]))).store 2000 1 1 (.ok .null)).calls =
      [AgentCall.executeAction 1 (.str "jira.createIssue")
        (.obj [("summary", .str "Changed")])] :=
  ⟨by decide,
   (C10_parameter_resolution (Controller.updateAction exStore 1 1
      (some (.obj [("summary", .str "Changed")]))).store 2000 1
     (toAction { exRow with edited_params := some (.obj [("summary", .str "Changed")]) })
     (.ok .null) (by decide)).1⟩

/-- C11 as stated fails for the empty platform: `replaceAll(1, '', [C1])` stores the new
channel under the default platform `slack` and deactivates nothing, and `findByUserId(1, '')`
applies no platform filter, so the channel `C0` that was active before is still returned. -/
theorem C11_empty_platform_keeps_old :
    (MonitoredChannelModel.findByUserId exRegistry 1 (some "")).map (·.channel_id) = ["C0"] ∧
    (MonitoredChannelModel.findByUserId (MonitoredChannelModel.replaceAll exRegistry 2000 1 "" [exChannel]) 1 (some "")).map
      (·.channel_id) = ["C1", "C0"] := by
  decide

/-- C11, amended: for every registry, user `u`, non-empty platform `p` and list `newList`,
the channel ids of `findByUserId(u, p)` after `replaceAll(u, p, newList)` are the channel
ids of `newList`, each as often as the list names it, whatever was active before. -/
theorem C11_replaceAll_then_find (reg : Registry) (now : Int) (u : Nat) (p : String)
    (newList : List ChannelSpec) (hp : p ≠ "") :
    List.Perm ((MonitoredChannelModel.findByUserId (MonitoredChannelModel.replaceAll reg now u p newList) u (some p)).map (·.channel_id))
      (newList.map (·.channelId)) := by
  unfold MonitoredChannelModel.findByUserId
  refine List.Perm.trans (List.Perm.map _ (List.perm_insertionSort _ _)) ?_
  rw [replaceAll_rows, List.filter_append]
  have hold : (MonitoredChannelModel.deactivateAll reg u p).rows.filter (fun r =>
      r.user_id == u && r.is_active &&
      (match some p with
       | none => true
       | some q => if q = "" then true else r.platform == q)) = [] := by
    rw [List.filter_eq_nil_iff]
    intro r hr
    simp only [MonitoredChannelModel.deactivateAll, List.mem_map] at hr
    obtain ⟨r0, _, h0⟩ := hr
    by_cases hc : r0.user_id = u ∧ r0.platform = p
    · rw [if_pos hc] at h0
      subst h0
      simp
    · rw [if_neg hc] at h0
      subst h0
      simp only [hp, if_false, Bool.and_eq_true, beq_iff_eq, not_and]
      intro h1 h2
      exact hc ⟨h1.1, h2⟩
  have hnew : (MonitoredChannelModel.newRows now u (newList.map fun c => { c with platform := some p })
      reg.nextId).filter (fun r =>
      r.user_id == u && r.is_active &&
      (match some p with
       | none => true
       | some q => if q = "" then true else r.platform == q)) =
      MonitoredChannelModel.newRows now u (newList.map fun c => { c with platform := some p }) reg.nextId := by
    rw [List.filter_eq_self]
    intro r hr
    obtain ⟨h1, h2, h3⟩ := newRows_of_platform now u p hp newList reg.nextId r hr
    simp [h1, h2, h3, hp]
  rw [hold, hnew, List.nil_append, newRows_channel_ids]
  simp [Function.comp_def]

/-- C11, amended, at the registry with the active channel `C0`, platform `slack` and the
list with the one channel `C1`. -/
theorem C11_replaceAll_then_find_witness :
    ("slack" : String) ≠ "" ∧
    (MonitoredChannelModel.findByUserId (MonitoredChannelModel.replaceAll exRegistry 2000 1 "slack"
      [exChannel]) 1 (some "slack")).map (·.channel_id) = ["C1"] ∧
    List.Perm
      ((MonitoredChannelModel.findByUserId (MonitoredChannelModel.replaceAll exRegistry 2000 1
        "slack" [exChannel]) 1 (some "slack")).map (·.channel_id))
      ([exChannel].map (·.channelId)) :=
  ⟨by decide, by decide, C11_replaceAll_then_find exRegistry 2000 1 "slack" [exChannel] (by decide)⟩

/-- C12 fails on the code: `monitored_channels` has no unique key on (user_id, platform,
channel_id), so `ON DUPLICATE KEY UPDATE` never applies. Two upserts of the same channel
leave two active rows for the key, and so does `replaceAll` with a repeated channel id. -/
theorem C12_upsert_twice_two_active :
    (MonitoredChannelModel.upsert (MonitoredChannelModel.upsert Registry.empty 1000 1 exChannel) 2000 1 exChannel).rows.map
      (fun r => (r.id, r.user_id, r.platform, r.channel_id, r.is_active)) =
      [(1, 1, "slack", "C1", true), (2, 1, "slack", "C1", true)] ∧
    (MonitoredChannelModel.findByUserId (MonitoredChannelModel.replaceAll Registry.empty 1000 1 "slack" [exChannel, exChannel]) 1
      (some "slack")).map (fun r => (r.id, r.channel_id, r.is_active)) =
      [(1, "C1", true), (2, "C1", true)] := by
  decide

/-- C13 as stated fails: user 1 monitors the channel id `C1` under `slack` and under
`asana`, and `findUsersByChannelId('C1')` lists user 1 twice. -/
theorem C13_user_listed_twice :
    twoPlatformRegistry.rows.map (fun r => (r.user_id, r.platform, r.channel_id, r.is_active)) =
      [(1, "slack", "C1", true), (1, "asana", "C1", true)] ∧
    MonitoredChannelModel.findUsersByChannelId twoPlatformRegistry "C1" = [1, 1] := by
  decide

/-- C13, amended: `findUsersByChannelId(channelId)` returns a list in which a user id
occurs exactly when that user has an active record with that channel id, and as many
times as the user has such records. -/
theorem C13_users_by_channel (reg : Registry) (channelId : String) (u : Nat) :
    (u ∈ MonitoredChannelModel.findUsersByChannelId reg channelId ↔
      ∃ r ∈ reg.rows, r.user_id = u ∧ r.is_active = true ∧ r.channel_id = channelId) ∧
    (MonitoredChannelModel.findUsersByChannelId reg channelId).count u =
      (reg.rows.filter fun r =>
        r.user_id == u && r.is_active && r.channel_id == channelId).length := by
  constructor
  · simp only [MonitoredChannelModel.findUsersByChannelId, List.mem_map, List.mem_filter,
      Bool.and_eq_true, beq_iff_eq]
    constructor
    · rintro ⟨r, ⟨hr, hc, ha⟩, hu⟩
      exact ⟨r, hr, hu, ha, hc⟩
    · rintro ⟨r, hr, hu, ha, hc⟩
      exact ⟨r, ⟨hr, hc, ha⟩, hu⟩
  · unfold MonitoredChannelModel.findUsersByChannelId
    induction reg.rows with
    | nil => rfl
    | cons r rest ih =>
      by_cases hc : r.channel_id = channelId <;> by_cases ha : r.is_active = true <;>
        by_cases hu : r.user_id = u <;>
        simp [List.filter_cons, List.count_cons, hc, ha, hu, ih]

/-- C14: `expireOld(h)` at time `now` turns every row that is pending and was created
before `now` minus `h` hours into the same row with status expired, and leaves every other
row, and the AUTO_INCREMENT counter, as they were. -/
theorem C14_expireOld (st : Store) (now hoursOld : Int) :
    (expireOld st now hoursOld).nextId = st.nextId ∧
    List.Forall₂ (fun r r' =>
      (r.status = some "pending" ∧ r.created_at < now - hoursOld * 3600 →
        r' = { r with status := some "expired" }) ∧
      (¬ (r.status = some "pending" ∧ r.created_at < now - hoursOld * 3600) → r' = r))
      st.rows (expireOld st now hoursOld).rows := by
  refine ⟨rfl, ?_⟩
  unfold expireOld
  apply forall₂_map_self
  intro r _
  by_cases h : r.status = some "pending" ∧ r.created_at < now - hoursOld * 3600
  · simp [h]
  · rw [if_neg h]
    exact ⟨fun h2 => absurd h2 h, fun _ => rfl⟩

/-- C14 at hour 30 with `h = 24`: the pending action created at hour 0 becomes expired,
the one created at hour 29 stays pending. -/
theorem C14_expireOld_example :
    (expireOld pendingStore 108000 24).rows =
      [{ exRow with status := some "expired", created_at := 0 },
       { exRow with id := 2, status := some "pending", created_at := 104400 }] ∧
    List.Forall₂ (fun r r' =>
      (r.status = some "pending" ∧ r.created_at < 108000 - 24 * 3600 →
        r' = { r with status := some "expired" }) ∧
      (¬ (r.status = some "pending" ∧ r.created_at < 108000 - 24 * 3600) → r' = r))
      pendingStore.rows (expireOld pendingStore 108000 24).rows :=
  ⟨by decide, (C14_expireOld pendingStore 108000 24).2⟩

/-- C15: serialize and deserialize round trip. After a successful `create` with
`suggestedParams = v` in a table whose ids are below the AUTO_INCREMENT counter, `findById`
of the new id returns `suggested_params = v`, and so does every entry with that id of every
`findByUserId` of the owner (the entry is there when the limit admits all rows); after
`updateParams(id, w)` on an existing action, `findById` and `findByUserId` return
`edited_params = w`. -/
theorem C15_round_trip (st : Store) (now : Int) (a : CreateArgs) (v : JSON)
    (created : CreatedAction) (id : Nat) (e : Action) (w : JSON)
    (hfresh : ∀ r ∈ st.rows, r.id < st.nextId)
    (hv : a.suggestedParams = some v)
    (hcreated : (create st now true a).1 = .ok created)
    (hexists : findById st id = some e) :
    (∃ x, findById (create st now true a).2 created.id = some x ∧ x.suggested_params = v) ∧
    (∃ x ∈ SuggestedActionModel.findByUserId (create st now true a).2 a.userId none
        (some (create st now true a).2.rows.length), x.id = created.id) ∧
    (∀ status limit,
      ∀ x ∈ SuggestedActionModel.findByUserId (create st now true a).2 a.userId status limit,
        x.id = created.id → x.suggested_params = v) ∧
    (∃ st1, updateParams st id (some w) = .ok st1 ∧
      (∃ x, findById st1 id = some x ∧ x.edited_params = w) ∧
      (∃ x ∈ SuggestedActionModel.findByUserId st1 e.user_id none (some st1.rows.length),
        x.id = id) ∧
      ∀ status limit, ∀ x ∈ SuggestedActionModel.findByUserId st1 e.user_id status limit,
        x.id = id → x.edited_params = w) := by
  obtain ⟨t, p, d, ht, hp, hd, _, hcr⟩ := create_ok_inv st now true a created hcreated
  have hpv : p = v := by rw [hp] at hv; exact Option.some.inj hv
  subst hpv
  have hc := create_ok st now a t p d ht hp hd
  have hnone : st.rows.find? (fun r => r.id == st.nextId) = none := by
    rw [List.find?_eq_none]
    intro r hr
    have := hfresh r hr
    simp only [beq_iff_eq]
    omega
  refine ⟨?_, ?_, ?_, ?_⟩
  · rw [hc, hcr, findById_eq]
    simp [List.find?_append, hnone, toAction, readJson]
  · rw [hc, hcr]
    refine ⟨_, findByUserId_mem _ a.userId _ (List.mem_append_right _ (List.mem_singleton_self _))
      rfl, rfl⟩
  · intro status limit x hx hid
    rw [hc] at hx
    obtain ⟨r, hr, hxr, _⟩ := mem_findByUserId _ _ _ _ x hx
    rw [hcr] at hid
    simp only at hr hid
    rw [List.mem_append, List.mem_singleton] at hr
    rcases hr with hr | hr
    · have := hfresh r hr
      rw [hxr] at hid
      simp only [toAction] at hid
      omega
    · rw [hxr, hr]; rfl
  · have hid := findById_id st id e hexists
    refine ⟨_, rfl, ?_, ?_, ?_⟩
    · obtain ⟨w2, hw, hf⟩ := findById_updateParams st _ id id (some w) rfl
      cases hw
      rw [hf, hexists]
      exact ⟨_, rfl, by simp [hid]⟩
    · rw [findById_eq] at hexists
      cases hrow : st.rows.find? (fun r => r.id == id) with
      | none => rw [hrow] at hexists; cases hexists
      | some row =>
        rw [hrow] at hexists
        simp only [Option.map_some', Option.some.injEq] at hexists
        have hmem := List.mem_of_find?_eq_some hrow
        have hrid : row.id = id := by simpa using List.find?_some hrow
        refine ⟨toAction { row with edited_params := some w }, ?_, ?_⟩
        · apply findByUserId_mem
          · simp only [List.mem_map]
            exact ⟨row, hmem, by simp [hrid]⟩
          · rw [← hexists]; rfl
        · simp [toAction, hrid]
    · intro status limit x hx hxid
      obtain ⟨r, hr, hxr, _⟩ := mem_findByUserId _ _ _ _ x hx
      simp only [List.mem_map] at hr
      obtain ⟨r0, _, hr0⟩ := hr
      by_cases hc0 : r0.id = id
      · rw [if_pos hc0] at hr0
        rw [hxr, ← hr0]; rfl
      · rw [if_neg hc0] at hr0
        rw [hxr, ← hr0] at hxid
        exact absurd hxid hc0

/-- C15 at the scenario's table: a second `create`, and `updateParams` with the value
`[1, null, ""]`. -/
theorem C15_round_trip_witness :
    (∀ r ∈ exStore.rows, r.id < exStore.nextId) ∧
    (∃ x, findById (create exStore 1000 true exArgs).2 2 = some x ∧
      x.suggested_params = .obj [("summary", .str "Login bug")]) ∧
    (∃ st1, updateParams exStore 1 (some (.arr [.num 1, .null, .str ""])) = .ok st1 ∧
      (∃ x, findById st1 1 = some x ∧ x.edited_params = .arr [.num 1, .null, .str ""]) ∧
      (∃ x ∈ SuggestedActionModel.findByUserId st1 1 none (some st1.rows.length), x.id = 1) ∧
      ∀ status limit, ∀ x ∈ SuggestedActionModel.findByUserId st1 1 status limit,
        x.id = 1 → x.edited_params = .arr [.num 1, .null, .str ""]) :=
  ⟨by decide,
   (C15_round_trip exStore 1000 exArgs (.obj [("summary", .str "Login bug")])
      { id := 2, args := exArgs, status := "pending" } 1 (toAction exRow)
      (.arr [.num 1, .null, .str ""]) (by decide) rfl rfl (by decide)).1,
   (C15_round_trip exStore 1000 exArgs (.obj [("summary", .str "Login bug")])
      { id := 2, args := exArgs, status := "pending" } 1 (toAction exRow)
      (.arr [.num 1, .null, .str ""]) (by decide) rfl rfl (by decide)).2.2.2⟩

/-- C16 as stated fails: `updateStatus(1, 'executed', 0)` provides the result `0`, yet
`execution_result` stays null. -/
theorem C16_falsy_result_not_written :
    findById exStore 1 = some (toAction exRow) ∧
    (findById (updateStatus exStore 2000 1 "executed" (some (.num 0))) 1).map
      (fun a => (a.status, a.executed_at, a.execution_result)) =
      some (some "executed", some 2000, .null) := by
  decide

/-- C16, amended: for an existing action `a` with id `id`, after `updateStatus(id, s, r)`
`findById(id)` returns `a` with status `s`, with `executed_at` the current time when `s` is
"executed" and as before otherwise, and with `execution_result` equal to `r` when `r` is
truthy and as before otherwise; every row with another id is unchanged. -/
theorem C16_updateStatus (st : Store) (now : Int) (id : Nat) (s : String) (r : JSValue)
    (a : Action) (hstored : findById st id = some a) :
    findById (updateStatus st now id s r) id =
      some { a with
        status := some s
        executed_at := if s = "executed" then some now else a.executed_at
        execution_result := if isTruthy r then readJson r else a.execution_result } ∧
    (updateStatus st now id s r).nextId = st.nextId ∧
    List.Forall₂ (fun x y => x.id ≠ id → y = x) st.rows (updateStatus st now id s r).rows := by
  have hid := findById_id st id a hstored
  refine ⟨?_, rfl, ?_⟩
  · rw [findById_updateStatus, hstored]
    simp [hid]
  · unfold updateStatus
    apply forall₂_map_self
    intro x _ hx
    simp [hx]

/-- C16, amended, at the scenario: `updateStatus(1, 'executed', {issueKey: 'PROJ-42'})`. -/
theorem C16_updateStatus_witness :
    findById exStore 1 = some (toAction exRow) ∧
    findById (updateStatus exStore 2000 1 "executed"
      (some (.obj [("issueKey", .str "PROJ-42")]))) 1 =
      some (toAction { exRow with
        status := some "executed", executed_at := some 2000,
        execution_result := some (.obj [("issueKey", .str "PROJ-42")]) }) :=
  ⟨by decide,
   (C16_updateStatus exStore 2000 1 "executed" (some (.obj [("issueKey", .str "PROJ-42")]))
     (toAction exRow) (by decide)).1⟩

/-- C17: no operation deletes a row. Reject, execute and `expireOld` keep every row of
`suggested_actions` in place with its id and owner and change at most its status (execute
also `executed_at` and `execution_result`); `delete`, `deleteById` and `replaceAll` keep
every row of `monitored_channels` in place with its id and owner and at most clear its
active flag; `replaceAll` and `upsert` only add rows after the existing ones. -/
theorem C17_no_physical_deletion (st : Store) (reg : Registry) (now : Int)
    (caller id : Nat) (reply : AxiosReply) (hoursOld : Int) (userId : Nat)
    (channelId platform : String) (c : ChannelSpec) (channels : List ChannelSpec) :
    List.Forall₂ (fun r r' => r'.id = r.id ∧ r'.user_id = r.user_id ∧
        (r' = r ∨ r' = { r with status := some "rejected" }))
      st.rows (Controller.rejectAction st now caller id).store.rows ∧
    List.Forall₂ (fun r r' => r'.id = r.id ∧ r'.user_id = r.user_id ∧
        (r' = r ∨ ∃ result, r' = { r with
          status := some "executed", executed_at := some now, execution_result := result }))
      st.rows (MonitoringService.executeAction st now caller id reply).store.rows ∧
    List.Forall₂ (fun r r' => r'.id = r.id ∧ r'.user_id = r.user_id ∧
        (r' = r ∨ r' = { r with status := some "expired" }))
      st.rows (expireOld st now hoursOld).rows ∧
    List.Forall₂ (fun r r' => r'.id = r.id ∧ r'.user_id = r.user_id ∧
        (r' = r ∨ r' = { r with is_active := false }))
      reg.rows (MonitoredChannelModel.delete reg userId channelId).rows ∧
    List.Forall₂ (fun r r' => r'.id = r.id ∧ r'.user_id = r.user_id ∧
        (r' = r ∨ r' = { r with is_active := false }))
      reg.rows (MonitoredChannelModel.deleteById reg id).rows ∧
    (∃ kept added,
      (MonitoredChannelModel.replaceAll reg now userId platform channels).rows = kept ++ added ∧
      List.Forall₂ (fun r r' => r'.id = r.id ∧ r'.user_id = r.user_id ∧
        (r' = r ∨ r' = { r with is_active := false })) reg.rows kept) ∧
    (∃ added, (MonitoredChannelModel.upsert reg now userId c).rows = reg.rows ++ added) := by
  refine ⟨?_, ?_, ?_, ?_, ?_, ?_, ?_⟩
  · rcases rejectAction_store st now caller id with e | ⟨_, e⟩
    · rw [e]; exact forall₂_self _ _ fun x _ => ⟨rfl, rfl, Or.inl rfl⟩
    · rw [e]
      unfold updateStatus
      apply forall₂_map_self
      intro x _
      by_cases hx : x.id = id
      · rw [if_pos hx]; exact ⟨rfl, rfl, Or.inr (by simp [isTruthy])⟩
      · rw [if_neg hx]; exact ⟨rfl, rfl, Or.inl rfl⟩
  · rcases executeAction_store st now caller id reply with e | ⟨_, res, _, _, _, e⟩
    · rw [e]; exact forall₂_self _ _ fun x _ => ⟨rfl, rfl, Or.inl rfl⟩
    · rw [e]
      unfold updateStatus
      apply forall₂_map_self
      intro x _
      by_cases hx : x.id = id
      · rw [if_pos hx]
        exact ⟨rfl, rfl, Or.inr
          ⟨if isTruthy (some res) then some res else x.execution_result, by simp⟩⟩
      · rw [if_neg hx]; exact ⟨rfl, rfl, Or.inl rfl⟩
  · unfold expireOld
    apply forall₂_map_self
    intro x _
    split
    · exact ⟨rfl, rfl, Or.inr rfl⟩
    · exact ⟨rfl, rfl, Or.inl rfl⟩
  · unfold MonitoredChannelModel.delete
    apply forall₂_map_self
    intro x _
    split
    · exact ⟨rfl, rfl, Or.inr rfl⟩
    · exact ⟨rfl, rfl, Or.inl rfl⟩
  · unfold MonitoredChannelModel.deleteById
    apply forall₂_map_self
    intro x _
    split
    · exact ⟨rfl, rfl, Or.inr rfl⟩
    · exact ⟨rfl, rfl, Or.inl rfl⟩
  · refine ⟨_, _, replaceAll_rows reg now userId platform channels, ?_⟩
    unfold MonitoredChannelModel.deactivateAll
    apply forall₂_map_self
    intro x _
    split
    · exact ⟨rfl, rfl, Or.inr rfl⟩
    · exact ⟨rfl, rfl, Or.inl rfl⟩
  · exact ⟨_, rfl⟩

/-- C17 at the registry with the channel `C0`: `deleteById(1)` keeps the row and clears
its active flag. -/
theorem C17_no_physical_deletion_example :
    (MonitoredChannelModel.deleteById exRegistry 1).rows =
      exRegistry.rows.map (fun r => { r with is_active := false }) ∧
    List.Forall₂ (fun r r' => r'.id = r.id ∧ r'.user_id = r.user_id ∧
        (r' = r ∨ r' = { r with is_active := false }))
      exRegistry.rows (MonitoredChannelModel.deleteById exRegistry 1).rows :=
  ⟨by decide,
   (C17_no_physical_deletion exStore exRegistry 2000 1 1 (.ok .null) 24 1 "C0" "slack"
     exChannel []).2.2.2.2.1⟩

/-- C18 as stated fails: for a suggestion with `params: false`, `parameters: {summary}`
and `description: ""`, the stored parameters are the `parameters` and the description is
"jira.createIssue action", although `params` and `description` are present. -/
theorem C18_falsy_fields_replaced :
    (processEvent Store.empty 1000 1 "slack" "C1"
      (some (utf16 "Can someone file a ticket for the login bug?")) none falsyReply
      (fun _ => true)).result.map (fun l => l.map fun c =>
        (c.id, c.args.suggestedTool, c.args.suggestedParams, c.args.description)) =
      some [(1, some (.str "jira.createIssue"), some (.obj [("summary", .str "Login bug")]),
        some (.str "jira.createIssue action"))] := by
  decide

/-- C18, amended: when the text passes the guard, the reply carries the suggestion
objects `objs` (at least one, each with a `tool`) and every INSERT succeeds,
`processEvent` returns one record per suggestion, in order; the record of suggestion `i`
has id `nextId + i`, the given user, platform and channel, status "pending", the
suggestion's tool, as parameters `params` when truthy, else `parameters` when truthy, else
`{}`, and as description `description` when truthy, else "<tool> action"; the rows are
appended to the table in the same order with the same values. -/
theorem C18_suggestions_stored_in_order (st : Store) (now : Int) (userId : Nat)
    (platform channelId : String) (text : JsText) (metadata : JSValue) (data : JSON)
    (dbOk : Nat → Bool) (objs : List (List (String × JSON)))
    (hlong : 10 ≤ (jsTrim text).length)
    (hdata : data.get .suggestions = .ok (some (.arr (objs.map .obj))))
    (hne : objs ≠ [])
    (htool : ∀ f ∈ objs, f.lookup "tool" ≠ none)
    (hdb : ∀ k, dbOk k = true) :
    ∃ created new,
      (processEvent st now userId platform channelId (some text) metadata (.ok data)
        dbOk).result = some created ∧
      (processEvent st now userId platform channelId (some text) metadata (.ok data)
        dbOk).store = { rows := st.rows ++ new, nextId := st.nextId + objs.length } ∧
      created.length = objs.length ∧ new.length = objs.length ∧
      ∀ i f, objs[i]? = some f →
        created[i]? = some
          { id := st.nextId + i
            args :=
              { userId := userId
                sourcePlatform := platform
                sourceChannel := channelId
                sourceContext := text.take 500
                suggestedTool := f.lookup "tool"
                suggestedParams :=
                  jsOr (jsOr (f.lookup "params") (f.lookup "parameters")) (some (.obj []))
                description :=
                  jsOr (f.lookup "description")
                    (some (.str (jsString (f.lookup "tool") ++ " action"))) }
            status := "pending" } ∧
        ∃ row, new[i]? = some row ∧ row.id = st.nextId + i ∧ row.user_id = userId ∧
          row.source_platform = platform ∧ row.source_channel = channelId ∧
          some row.suggested_tool = f.lookup "tool" ∧
          row.suggested_params =
            jsOr (jsOr (f.lookup "params") (f.lookup "parameters")) (some (.obj [])) ∧
          some row.description =
            jsOr (f.lookup "description")
              (some (.str (jsString (f.lookup "tool") ++ " action"))) := by
  obtain ⟨created, new, hrun, hlen, hnew, hall⟩ :=
    storeSuggestions_ok userId platform channelId text now dbOk hdb objs htool 0 st []
  refine ⟨created, new, ?_, ?_, hlen, hnew, hall⟩
  · simp [processEvent, guard_passes text hlong, hdata, jsOr, isTruthy, JSON.truthy,
      JSON.lengthProp, JSON.iterate, hrun, hne]
  · simp [processEvent, guard_passes text hlong, hdata, jsOr, isTruthy, JSON.truthy,
      JSON.lengthProp, JSON.iterate, hrun, hne]

/-- C18, amended, at the scenario's event and a reply with two suggestions, neither with
a description: the two records come back in the order of the suggestions with ids 1 and 2,
each with its own tool and parameters and the description "<tool> action", and the two
rows are appended in the same order. -/
theorem C18_suggestions_stored_in_order_witness :
    10 ≤ (jsTrim (utf16 "Can someone file a ticket for the login bug?")).length ∧
    twoSuggestions = .ok (.obj [("suggestions", .arr (List.map .obj
      [[("tool", .str "jira.createIssue"), ("params", .obj [("summary", .str "Login bug")])],
       [("tool", .str "slack.sendMessage"), ("params", .obj [("text", .str "On it")])]]))]) ∧
    ∃ created new,
      (processEvent Store.empty 1000 1 "slack" "C1"
        (some (utf16 "Can someone file a ticket for the login bug?")) none twoSuggestions
        (fun _ => true)).result = some created ∧
      (processEvent Store.empty 1000 1 "slack" "C1"
        (some (utf16 "Can someone file a ticket for the login bug?")) none twoSuggestions
        (fun _ => true)).store = { rows := Store.empty.rows ++ new, nextId := 1 + 2 } ∧
      created.length = 2 ∧ new.length = 2 ∧
      created[0]? = some
        { id := 1
          args :=
            { userId := 1
              sourcePlatform := "slack"
              sourceChannel := "C1"
              sourceContext := utf16 "Can someone file a ticket for the login bug?"
              suggestedTool := some (.str "jira.createIssue")
              suggestedParams := some (.obj [("summary", .str "Login bug")])
              description := some (.str "jira.createIssue action") }
          status := "pending" } ∧
      created[1]? = some
        { id := 2
          args :=
            { userId := 1
              sourcePlatform := "slack"
              sourceChannel := "C1"
              sourceContext := utf16 "Can someone file a ticket for the login bug?"
              suggestedTool := some (.str "slack.sendMessage")
              suggestedParams := some (.obj [("text", .str "On it")])
              description := some (.str "slack.sendMessage action") }
          status := "pending" } ∧
      (∃ row, new[0]? = some row ∧ row.id = 1 ∧ row.user_id = 1 ∧
        row.source_platform = "slack" ∧ row.source_channel = "C1" ∧
        row.suggested_tool = .str "jira.createIssue" ∧
        row.suggested_params = some (.obj [("summary", .str "Login bug")]) ∧
        row.description = .str "jira.createIssue action") ∧
      (∃ row, new[1]? = some row ∧ row.id = 2 ∧ row.user_id = 1 ∧
        row.source_platform = "slack" ∧ row.source_channel = "C1" ∧
        row.suggested_tool = .str "slack.sendMessage" ∧
        row.suggested_params = some (.obj [("text", .str "On it")]) ∧
        row.description = .str "slack.sendMessage action") := by
  obtain ⟨created, new, hres, hstore, hlen, hnew, hall⟩ :=
    C18_suggestions_stored_in_order Store.empty 1000 1 "slack" "C1"
      (utf16 "Can someone file a ticket for the login bug?") none
      (.obj [("suggestions", .arr (List.map .obj
        [[("tool", .str "jira.createIssue"), ("params", .obj [("summary", .str "Login bug")])],
         [("tool", .str "slack.sendMessage"), ("params", .obj [("text", .str "On it")])]]))])
      (fun _ => true)
      [[("tool", .str "jira.createIssue"), ("params", .obj [("summary", .str "Login bug")])],
       [("tool", .str "slack.sendMessage"), ("params", .obj [("text", .str "On it")])]]
      (by decide) (by decide) (by decide) (by decide) (fun _ => rfl)
  obtain ⟨h0, row0, r0, a0, b0, c0, d0, e0, f0, g0⟩ := hall 0 _ rfl
  obtain ⟨h1, row1, r1, a1, b1, c1, d1, e1, f1, g1⟩ := hall 1 _ rfl
  refine ⟨by decide, by decide, created, new, hres, hstore, hlen, hnew, ?_, ?_, ?_, ?_⟩
  · rw [h0]; decide
  · rw [h1]; decide
  · exact ⟨row0, r0, a0, b0, c0, d0, Option.some.inj e0, f0, Option.some.inj g0⟩
  · exact ⟨row1, r1, a1, b1, c1, d1, Option.some.inj e1, f1, Option.some.inj g1⟩

/-- C19: `processEvent` never raises. For a text that passes the guard it always returns
a sequence, and the sequence is empty when the request fails (then the table is
unchanged), when reading `suggestions` from the body throws, when `suggestions` is not
iterable, and when the INSERT of some suggestion fails. -/
theorem C19_processEvent_degrades (st : Store) (now : Int) (userId : Nat)
    (platform channelId : String) (text : JsText) (metadata : JSValue) (dbOk : Nat → Bool)
    (hlong : 10 ≤ (jsTrim text).length) :
    (∀ reply, ∃ records,
      (processEvent st now userId platform channelId (some text) metadata reply dbOk).result =
        some records) ∧
    (∀ code message responseData,
      (processEvent st now userId platform channelId (some text) metadata
        (.failed code message responseData) dbOk).result = some [] ∧
      (processEvent st now userId platform channelId (some text) metadata
        (.failed code message responseData) dbOk).store = st) ∧
    (∀ data e, data.get .suggestions = .error e →
      (processEvent st now userId platform channelId (some text) metadata (.ok data)
        dbOk).result = some []) ∧
    (∀ data v, data.get .suggestions = .ok (some v) → v.truthy = true → v.iterate = none →
      (processEvent st now userId platform channelId (some text) metadata (.ok data)
        dbOk).result = some []) ∧
    (∀ data items, data.get .suggestions = .ok (some (.arr items)) →
      (∃ k, k < items.length ∧ dbOk k = false) →
      (processEvent st now userId platform channelId (some text) metadata (.ok data)
        dbOk).result = some []) := by
  have hg := guard_passes text hlong
  refine ⟨?_, ?_, ?_, ?_, ?_⟩
  · intro reply
    unfold processEvent
    simp only [hg, if_false]
    cases reply with
    | failed c m d => exact ⟨[], rfl⟩
    | ok data =>
      simp only
      split
      · exact ⟨[], rfl⟩
      · split
        · exact ⟨[], rfl⟩
        · split
          · exact ⟨[], rfl⟩
          · split
            · exact ⟨[], rfl⟩
            · split
              · exact ⟨_, rfl⟩
              · exact ⟨[], rfl⟩
  · intro code message responseData
    simp [processEvent, hg]
  · intro data e he
    simp [processEvent, hg, he]
  · intro data v hv ht hi
    simp only [processEvent, hg, if_false, hv, jsOr, isTruthy, ht, if_true, hi]
    split <;> rfl
  · intro data items hv hk
    obtain ⟨e, he⟩ := storeSuggestions_fails userId platform channelId text now dbOk items 0 st []
      (by simpa using hk)
    have hne : items ≠ [] := by
      rintro rfl
      obtain ⟨k, h, _⟩ := hk
      simp at h
    simp only [processEvent, hg, if_false, hv, jsOr, isTruthy, JSON.truthy, if_true,
      JSON.lengthProp, JSON.iterate]
    have hl : ¬ (some (JSON.num (items.length : Int)) = some (JSON.num 0)) := by
      simpa using hne
    rw [if_neg hl]
    cases hrun : storeSuggestions userId platform channelId text now dbOk items 0 st [] with
    | mk res st1 =>
      rw [hrun] at he
      simp only at he
      subst he
      rfl

/-- C19 at the scenario's event: a refused connection, and a database that rejects the
INSERT. -/
theorem C19_processEvent_degrades_witness :
    10 ≤ (jsTrim (utf16 "Can someone file a ticket for the login bug?")).length ∧
    processEvent Store.empty 1000 1 "slack" "C1"
      (some (utf16 "Can someone file a ticket for the login bug?")) none
      (.failed (some "ECONNREFUSED") "connect ECONNREFUSED 127.0.0.1:8000" none)
      (fun _ => true) =
      ⟨some [], Store.empty,
       [.analyzeContext 1 "slack" "C1" (utf16 "Can someone file a ticket for the login bug?")
         (.obj [])]⟩ ∧
    (processEvent Store.empty 1000 1 "slack" "C1"
      (some (utf16 "Can someone file a ticket for the login bug?")) none exReply
      (fun _ => false)).result = some [] :=
  ⟨by decide, by decide,
   (C19_processEvent_degrades Store.empty 1000 1 "slack" "C1"
      (utf16 "Can someone file a ticket for the login bug?") none (fun _ => false)
      (by decide)).2.2.2.2 _ _ rfl ⟨0, by decide, rfl⟩⟩

set_option maxRecDepth 20000 in
/-- C20 fails on the code: for a text of 499 times `a` followed by U+1F600,
`substring(0, 500)` cuts the surrogate pair of the last character, the record `processEvent`
returns carries the cut text, and the row stores 499 times `a` followed by U+FFFD, which is
not a prefix of the text. In general every row `processEvent` adds stores `toWellFormed`
of the first 500 code units, a text of `min 500 (length of the text)` code units, and that
is the prefix the claim describes when those code units hold no surrogate. -/
theorem C20_cut_surrogate_pair :
    cutPairText.length = 501 ∧
    cutPairText.take 500 = List.replicate 499 97 ++ [55357] ∧
    (processEvent Store.empty 1000 1 "slack" "C1" (some cutPairText) none exReply
      (fun _ => true)).result.map (fun l => l.map fun c => c.args.sourceContext) =
      some [List.replicate 499 97 ++ [55357]] ∧
    (processEvent Store.empty 1000 1 "slack" "C1" (some cutPairText) none exReply
      (fun _ => true)).store.rows.map (·.source_context) =
      [List.replicate 499 97 ++ [65533]] ∧
    (¬ ∃ rest, (List.replicate 499 97 ++ [65533]) ++ rest = cutPairText) ∧
    ∀ (st : Store) (now : Int) (userId : Nat) (platform channelId : String)
      (contextText : Option JsText) (metadata : JSValue) (reply : AxiosReply)
      (dbOk : Nat → Bool),
      ∃ new,
        (processEvent st now userId platform channelId contextText metadata reply
          dbOk).store.rows = st.rows ++ new ∧
        ∀ r ∈ new, ∃ text, contextText = some text ∧
          r.source_context = toWellFormed (text.take 500) ∧
          r.source_context.length = min 500 text.length ∧
          ((∀ u ∈ text.take 500, isHighSurrogate u = false ∧ isLowSurrogate u = false) →
            r.source_context = text.take 500 ∧ ∃ rest, r.source_context ++ rest = text) := by
  refine ⟨by decide, by decide, by decide, by decide, ?_, ?_⟩
  · rintro ⟨rest, h⟩
    have := congrArg (fun l => l[499]?) h
    simp [cutPairText] at this
  · intro st now userId platform channelId contextText metadata reply dbOk
    obtain ⟨new, h1, _, h3⟩ :=
      processEvent_rows st now userId platform channelId contextText metadata reply dbOk
    refine ⟨new, h1, ?_⟩
    intro r hr
    obtain ⟨⟨text, ht, hc⟩, _⟩ := h3 r hr
    refine ⟨text, ht, hc, ?_, ?_⟩
    · rw [hc, toWellFormed_length, List.length_take]
    · intro hno
      have heq : r.source_context = text.take 500 := by
        rw [hc, toWellFormed_of_no_surrogate _ hno]
      exact ⟨heq, text.drop 500, by rw [heq, List.take_append_drop]⟩

/-- C21: `findByUserId(userId, status, limit)` of the action store returns only actions
of `userId`, all with status `status` when a non-empty status is given, ordered newest first
by `created_at`; it returns `min(limit, number of matching rows)` actions, which are the
newest of the matching rows (every returned row is at least as new as every matching row
left out); the limit is 50 when none is given. -/
theorem C21_findByUserId (st : Store) (userId : Nat) (status : Option String)
    (limit : Option Nat) :
    (∀ x ∈ SuggestedActionModel.findByUserId st userId status limit,
      x.user_id = userId ∧ ∀ s, status = some s → s ≠ "" → x.status = some s) ∧
    List.Pairwise (fun x y : Action => x.created_at ≥ y.created_at)
      (SuggestedActionModel.findByUserId st userId status limit) ∧
    (SuggestedActionModel.findByUserId st userId status limit).length =
      min (limit.getD 50)
        (st.rows.filter (SuggestedActionModel.selects userId status)).length ∧
    (∃ newest older,
      SuggestedActionModel.findByUserId st userId status limit = newest.map toAction ∧
      List.Perm (newest ++ older)
        (st.rows.filter (SuggestedActionModel.selects userId status)) ∧
      ∀ x ∈ newest, ∀ y ∈ older, x.created_at ≥ y.created_at) ∧
    (∀ r, SuggestedActionModel.selects userId status r = true ↔
      r.user_id = userId ∧ ∀ s, status = some s → s ≠ "" → r.status = some s) ∧
    SuggestedActionModel.findByUserId st userId status none =
      SuggestedActionModel.findByUserId st userId status (some 50) := by
  have hsel : ∀ r, SuggestedActionModel.selects userId status r = true ↔
      r.user_id = userId ∧ ∀ s, status = some s → s ≠ "" → r.status = some s := by
    intro r
    unfold SuggestedActionModel.selects
    simp only [Bool.and_eq_true, beq_iff_eq]
    cases status with
    | none => simp
    | some s =>
      by_cases hne : s = ""
      · simp [hne]
      · simp [hne]
  refine ⟨?_, ?_, ?_, ?_, hsel, rfl⟩
  · intro x hx
    rw [findByUserId_selects, List.mem_map] at hx
    obtain ⟨r, hr, rfl⟩ := hx
    have h1 := List.mem_of_mem_take hr
    rw [(List.perm_insertionSort _ _).mem_iff, List.mem_filter] at h1
    exact (hsel r).mp h1.2
  · rw [findByUserId_selects, List.pairwise_map]
    exact (sorted_newest_first _).sublist (List.take_sublist _ _)
  · rw [findByUserId_selects, List.length_map, List.length_take, List.length_insertionSort]
  · rw [findByUserId_selects]
    exact newest_split _ st.rows (limit.getD 50)

/-- C21 at the table with two pending actions: with limit 1 the newer action 2 is
returned. -/
theorem C21_findByUserId_example :
    (SuggestedActionModel.findByUserId pendingStore 1 (some "pending") (some 1)).map
      (fun a => (a.id, a.created_at)) = [(2, 104400)] ∧
    List.Pairwise (fun x y : Action => x.created_at ≥ y.created_at)
      (SuggestedActionModel.findByUserId pendingStore 1 (some "pending") none) :=
  ⟨by decide, (C21_findByUserId pendingStore 1 (some "pending") none).2.1⟩

/-- C22: `findByUserId(userId, platform)` of the channel registry returns exactly the
active rows of `userId`, of the platform `platform` when a non-empty one is given, each as
often as the table holds it, ordered by channel name ascending; a row whose active flag is
cleared is never in the result. -/
theorem C22_channels_of_user (reg : Registry) (userId : Nat) (platform : Option String) :
    List.Perm (MonitoredChannelModel.findByUserId reg userId platform)
      (reg.rows.filter fun r =>
        r.user_id == userId && r.is_active &&
        (match platform with
         | none => true
         | some p => if p = "" then true else r.platform == p)) ∧
    (∀ r, r ∈ MonitoredChannelModel.findByUserId reg userId platform ↔
      r ∈ reg.rows ∧ r.user_id = userId ∧ r.is_active = true ∧
        ∀ p, platform = some p → p ≠ "" → r.platform = p) ∧
    List.Pairwise (fun a b : ChannelRow => a.channel_name.toList ≤ b.channel_name.toList)
      (MonitoredChannelModel.findByUserId reg userId platform) := by
  refine ⟨List.perm_insertionSort _ _, ?_, sorted_by_name _⟩
  intro r
  unfold MonitoredChannelModel.findByUserId
  rw [(List.perm_insertionSort _ _).mem_iff, List.mem_filter]
  constructor
  · rintro ⟨hr, h⟩
    simp only [Bool.and_eq_true, beq_iff_eq] at h
    refine ⟨hr, h.1.1, h.1.2, ?_⟩
    intro p hp hne
    subst hp
    have h3 := h.2
    simp only [hne, if_false, beq_iff_eq] at h3
    exact h3
  · rintro ⟨hr, hu, ha, hp⟩
    refine ⟨hr, ?_⟩
    simp only [Bool.and_eq_true, beq_iff_eq]
    refine ⟨⟨hu, ha⟩, ?_⟩
    cases platform with
    | none => rfl
    | some p =>
      by_cases hne : p = ""
      · simp [hne]
      · simp [hne, hp p rfl hne]

/-- C22 at the registry with the channels "general" and "tasks": both are listed in
this order, and after `deleteById(1)` only "tasks" is. -/
theorem C22_channels_of_user_example :
    (MonitoredChannelModel.findByUserId
      (MonitoredChannelModel.deleteById twoPlatformRegistry 1) 1 none).map
      (fun r => (r.id, r.platform, r.channel_name)) = [(2, "asana", "tasks")] ∧
    (MonitoredChannelModel.findByUserId twoPlatformRegistry 1 none).map
      (fun r => (r.id, r.platform, r.channel_name)) =
      [(1, "slack", "general"), (2, "asana", "tasks")] ∧
    List.Pairwise (fun a b : ChannelRow => a.channel_name.toList ≤ b.channel_name.toList)
      (MonitoredChannelModel.findByUserId twoPlatformRegistry 1 none) :=
  ⟨by decide, by decide, (C22_channels_of_user twoPlatformRegistry 1 none).2.2⟩

/-- C23: `internalAnalyze` without `userId` or without `context`, and `setChannels`
without `platform` or with `channels` that is not an array, answer 400 with the table
unchanged and no request sent to the reasoning service. -/
theorem C23_missing_field_rejected (st : Store) (reg : Registry) (now : Int) (caller : Nat)
    (body : AnalyzeBody) (reply : AxiosReply) (dbOk : Nat → Bool)
    (platform : Option String) (channels : Option (List ChannelSpec))
    (updateFault insertFault selectFault : Fault) :
    (body.userId = none ∨ body.context = none →
      Controller.internalAnalyze st now body reply dbOk =
        ⟨.json 400 [("success", .bool false), ("message", .str "userId and context required")],
         st, []⟩) ∧
    (platform = none ∨ channels = none →
      Controller.setChannels reg now caller platform channels updateFault insertFault
        selectFault =
        ⟨.json 400 [("success", .bool false),
          ("message", .str "platform and channels[] are required")], reg⟩) := by
  constructor
  · intro h
    unfold Controller.internalAnalyze
    rcases h with h | h
    · rw [h]
    · rw [h]
      cases body.userId <;> rfl
  · intro h
    unfold Controller.setChannels
    rcases h with h | h
    · rw [h]
    · rw [h]
      cases platform <;> rfl

/-- C23 at a body without `userId`, and at a `setChannels` body whose `channels` is
not an array. -/
theorem C23_missing_field_rejected_example :
    Controller.internalAnalyze exStore 2000 ⟨none, some "slack", some "C1",
      some (utf16 "Can someone file a ticket for the login bug?"), none⟩ exReply
      (fun _ => true) =
      ⟨.json 400 [("success", .bool false), ("message", .str "userId and context required")],
       exStore, []⟩ ∧
    Controller.setChannels exRegistry 2000 1 (some "slack") none none none none =
      ⟨.json 400 [("success", .bool false),
        ("message", .str "platform and channels[] are required")], exRegistry⟩ :=
  ⟨(C23_missing_field_rejected exStore exRegistry 2000 1 ⟨none, some "slack", some "C1",
      some (utf16 "Can someone file a ticket for the login bug?"), none⟩ exReply
      (fun _ => true) (some "slack") none none none none).1 (Or.inl rfl),
   (C23_missing_field_rejected exStore exRegistry 2000 1 ⟨none, some "slack", some "C1",
      some (utf16 "Can someone file a ticket for the login bug?"), none⟩ exReply
      (fun _ => true) (some "slack") none none none none).2 (Or.inr rfl)⟩

/-- C24 as stated fails: the object `create` returns for the scenario's arguments is
`{ id: 1, ...arguments, status: 'pending' }`; it has no property `edited_params` and no
property `execution_result`, so both read as `undefined`, not as `null`. -/
theorem C24_no_edited_params_property :
    (create Store.empty 1000 true exArgs).1 =
      .ok { id := 1, args := exArgs, status := "pending" } ∧
    ({ id := 1, args := exArgs, status := "pending" } : CreatedAction).prop "edited_params" =
      none ∧
    ({ id := 1, args := exArgs, status := "pending" } : CreatedAction).prop "execution_result" =
      none ∧
    ({ id := 1, args := exArgs, status := "pending" } : CreatedAction).prop "edited_params" ≠
      some (.value (some .null)) := by
  decide

/-- C24, amended: whenever `create` returns a record, the record carries the new id (the
AUTO_INCREMENT value), status "pending" and the arguments it was given, and has neither an
`edited_params` nor an `execution_result` property. -/
theorem C24_created_record (st : Store) (now : Int) (dbOk : Bool) (a : CreateArgs)
    (c : CreatedAction) (hcreated : (create st now dbOk a).1 = .ok c) :
    c.prop "id" = some (.number st.nextId) ∧
    c.prop "status" = some (.string "pending") ∧
    c.args = a ∧
    c.prop "suggestedParams" = some (.value a.suggestedParams) ∧
    c.prop "edited_params" = none ∧
    c.prop "execution_result" = none := by
  obtain ⟨_, _, _, _, _, _, _, hc⟩ := create_ok_inv st now dbOk a c hcreated
  subst hc
  exact ⟨rfl, rfl, rfl, rfl, rfl, rfl⟩

/-- C24, amended, at the scenario's table and arguments: the record has id 2 and status
"pending". -/
theorem C24_created_record_witness :
    (create exStore 1000 true exArgs).1 = .ok { id := 2, args := exArgs, status := "pending" } ∧
    ({ id := 2, args := exArgs, status := "pending" } : CreatedAction).prop "id" =
      some (.number 2) ∧
    ({ id := 2, args := exArgs, status := "pending" } : CreatedAction).prop "status" =
      some (.string "pending") :=
  ⟨by decide,
   (C24_created_record exStore 1000 true exArgs { id := 2, args := exArgs, status := "pending" }
     (by decide)).1,
   (C24_created_record exStore 1000 true exArgs { id := 2, args := exArgs, status := "pending" }
     (by decide)).2.1⟩

/-- C25 fails on the code: without the `x-hook-secret` header, the body
`{"events": [null]}` makes `event.action` throw a TypeError and the body `{"events": 5}`
makes the `for ... of` throw, and the handler has no `try`, so no 200 is sent. With the
header the secret is echoed with status 200; a missing body and well-formed events are
acknowledged with 200. -/
theorem C25_null_event_raises :
    Controller.asanaWebhook none (some (.obj [("events", .arr [.null])])) =
      .raised "TypeError: Cannot read properties of null" ∧
    Controller.asanaWebhook none (some (.obj [("events", .num 5)])) =
      .raised "TypeError: events is not iterable" ∧
    Controller.asanaWebhook (some "s3cret") (some (.obj [("events", .arr [.null])])) =
      .sendStatus 200 [("X-Hook-Secret", "s3cret")] ∧
    Controller.asanaWebhook none none = .sendStatus 200 [] ∧
    Controller.asanaWebhook none (some (.obj [("events", .arr [.obj [("action", .str "changed")],
      .obj []])])) = .sendStatus 200 [] := by
  decide

/-- C26 as stated fails: no row of the registry has id 999, and `removeChannel` with
id 999 answers 200 with `success: true` and leaves the registry as it was. -/
theorem C26_unknown_channel_answers_success :
    (∀ r ∈ exRegistry.rows, r.id ≠ 999) ∧
    Controller.removeChannel exRegistry 1 999 none =
      ⟨.json 200 [("success", .bool true), ("message", .str "Channel removed from monitoring")],
       exRegistry⟩ := by
  decide

/-- C26, amended: `removeChannel` with an id that no row of `monitored_channels` has
answers 200 with `success: true` and the message "Channel removed from monitoring", and
leaves the registry unchanged. -/
theorem C26_removeChannel_unknown_id (reg : Registry) (caller id : Nat)
    (habsent : ∀ r ∈ reg.rows, r.id ≠ id) :
    Controller.removeChannel reg caller id none =
      ⟨.json 200 [("success", .bool true), ("message", .str "Channel removed from monitoring")],
       reg⟩ := by
  unfold Controller.removeChannel
  rw [deleteById_absent reg id habsent]

/-- C26, amended, at the registry with the one channel of id 1 and the id 7. -/
theorem C26_removeChannel_unknown_id_witness :
    (∀ r ∈ exRegistry.rows, r.id ≠ 7) ∧
    Controller.removeChannel exRegistry 2 7 none =
      ⟨.json 200 [("success", .bool true), ("message", .str "Channel removed from monitoring")],
       exRegistry⟩ :=
  ⟨by decide, C26_removeChannel_unknown_id exRegistry 2 7 (by decide)⟩

/-- C27 as stated fails for `slackAIChat`: when posting the first message to Slack
fails, and when the lookup of the user fails, the handler answers 200 with `success: true`
and the fallback text. -/
theorem C27_chat_failure_answers_success :
    IntegrationController.slackAIChat (.ok (some "Ada")) (some "please file a ticket")
      (.failed (some "channel_not_found") "An API error occurred") (.ok (.obj []))
      (.ok (some (.str "1700000000.000100"))) (fun s => s) =
      .json 200 [("success", .bool true),
        ("data", .obj [("aiResponse", .str "⚠️ Failed to process. Please try again.")])] ∧
    (IntegrationController.slackAIChat (.ok (some "Ada")) (some "please file a ticket")
      (.failed (some "channel_not_found") "An API error occurred") (.ok (.obj []))
      (.ok (some (.str "1700000000.000100"))) (fun s => s)).success = true ∧
    (IntegrationController.slackAIChat (.error "connect ETIMEDOUT") (some "please file a ticket")
      (.ok (some (.str "1700000000.000100"))) (.ok (.obj []))
      (.ok (some (.str "1700000000.000200"))) (fun s => s)).success = true := by
  decide

/-- C27, amended: `executeAction` passes every failure of its lookup, of the reasoning
service and of its update to `next`. `updateAction` and `rejectAction` pass a failed lookup
to `next`, and pass a failed UPDATE to `next` whenever the UPDATE is reached (the action
exists and belongs to the caller); with any failed database call they leave the table
unchanged and do not answer success. `setChannels`, for a body that passes its check, passes
the failure of its UPDATE, of its INSERT and of its SELECT to `next`, and with any failed
call it does not answer success. `sendSlackMessage` passes a failed lookup and a failed
post to `next`. `slackAIChat` always answers 200 with `success: true`, whatever fails. -/
theorem C27_failures_passed_on (st : Store) (reg : Registry) (now : Int) (caller id : Nat)
    (params : JSValue) (reply : AxiosReply) (platform : Option String)
    (channels : Option (List ChannelSpec)) (findFault updateFault insertFault selectFault : Fault)
    (userLookup : Except String (Option String)) (message : Option String)
    (first second post : SlackPost) (agent : AxiosReply) (cleanResponse : String → String) :
    (findFault ≠ none ∨ (∃ c m d, reply = .failed c m d) ∨ updateFault ≠ none →
      ∃ e, (Controller.executeAction st now caller id reply findFault updateFault).reply =
        .next e) ∧
    (∀ e, Controller.executeAction st now caller id reply (some e) updateFault =
      ⟨.next e, st, []⟩) ∧
    (findFault ≠ none ∨ updateFault ≠ none →
      (Controller.updateActionWithFaults st caller id params findFault
        updateFault).response.success = false ∧
      (Controller.updateActionWithFaults st caller id params findFault updateFault).store = st) ∧
    (findFault ≠ none ∨ updateFault ≠ none →
      (Controller.rejectActionWithFaults st now caller id findFault
        updateFault).response.success = false ∧
      (Controller.rejectActionWithFaults st now caller id findFault updateFault).store = st) ∧
    (∀ e, Controller.updateActionWithFaults st caller id params (some e) updateFault =
        ⟨.next e, st, []⟩ ∧
      Controller.rejectActionWithFaults st now caller id (some e) updateFault =
        ⟨.next e, st, []⟩) ∧
    (∀ a e, SuggestedActionModel.findById st id = some a → a.user_id = caller →
      (∃ e2, Controller.updateActionWithFaults st caller id params none (some e) =
        ⟨.next e2, st, []⟩) ∧
      (∀ v, params = some v →
        Controller.updateActionWithFaults st caller id params none (some e) =
          ⟨.next e, st, []⟩) ∧
      Controller.rejectActionWithFaults st now caller id none (some e) =
        ⟨.next e, st, []⟩) ∧
    (updateFault ≠ none ∨ (insertFault ≠ none ∧ ∃ l, channels = some l ∧ l ≠ []) ∨
        selectFault ≠ none →
      (Controller.setChannels reg now caller platform channels updateFault insertFault
        selectFault).reply.success = false) ∧
    (∀ p l e, p ≠ "" →
      Controller.setChannels reg now caller (some p) (some l) (some e) insertFault
        selectFault = ⟨.next e, reg⟩ ∧
      (l ≠ [] →
        Controller.setChannels reg now caller (some p) (some l) none (some e) selectFault =
          ⟨.next e, MonitoredChannelModel.deactivateAll reg caller p⟩) ∧
      (l = [] ∨ insertFault = none →
        (Controller.setChannels reg now caller (some p) (some l) none insertFault
          (some e)).reply = .next e)) ∧
    (∀ e, IntegrationController.sendSlackMessage (.error e) post = .next e) ∧
    (∀ name d m, IntegrationController.sendSlackMessage (.ok name) (.failed d m) =
      .next ("Failed to send Slack message: " ++ orDefault d m)) ∧
    (∃ body, IntegrationController.slackAIChat userLookup message first agent second
        cleanResponse = .json 200 body ∧
      (IntegrationController.slackAIChat userLookup message first agent second
        cleanResponse).success = true) := by
  refine ⟨?_, ?_, ?_, ?_, ?_, ?_, ?_, ?_, ?_, ?_, ?_⟩
  · intro h
    unfold Controller.executeAction
    cases findFault with
    | some e => exact ⟨e, rfl⟩
    | none =>
      simp only
      cases hx : MonitoringService.executeAction st now caller id reply with
      | mk res st1 calls =>
        cases res with
        | error e => exact ⟨e, rfl⟩
        | ok result =>
          cases updateFault with
          | some e => exact ⟨e, rfl⟩
          | none =>
            exfalso
            rcases h with h | ⟨c, m, d, h⟩ | h
            · exact h rfl
            · subst h
              have := executeAction_failed_error st now caller id c m d
              rw [hx] at this
              obtain ⟨e, he⟩ := this
              cases he
            · exact h rfl
  · intro e
    rfl
  · intro h
    unfold Controller.updateActionWithFaults
    cases findFault with
    | some e => exact ⟨rfl, rfl⟩
    | none =>
      simp only
      cases SuggestedActionModel.findById st id with
      | none => exact ⟨rfl, rfl⟩
      | some a =>
        simp only
        split
        · exact ⟨rfl, rfl⟩
        · cases SuggestedActionModel.updateParams st id params with
          | error e => exact ⟨rfl, rfl⟩
          | ok st1 =>
            cases updateFault with
            | some e => exact ⟨rfl, rfl⟩
            | none => rcases h with h | h <;> exact absurd rfl h
  · intro h
    unfold Controller.rejectActionWithFaults
    cases findFault with
    | some e => exact ⟨rfl, rfl⟩
    | none =>
      simp only
      cases SuggestedActionModel.findById st id with
      | none => exact ⟨rfl, rfl⟩
      | some a =>
        simp only
        split
        · exact ⟨rfl, rfl⟩
        · cases updateFault with
          | some e => exact ⟨rfl, rfl⟩
          | none => rcases h with h | h <;> exact absurd rfl h
  · intro e
    exact ⟨rfl, rfl⟩
  · intro a e hfind hown
    refine ⟨?_, ?_, ?_⟩
    · cases params with
      | none =>
        exact ⟨"Bind parameters must not contain undefined", by
          simp [Controller.updateActionWithFaults, hfind, hown,
            SuggestedActionModel.updateParams]⟩
      | some v =>
        exact ⟨e, by
          simp [Controller.updateActionWithFaults, hfind, hown,
            SuggestedActionModel.updateParams]⟩
    · intro v hv
      subst hv
      simp [Controller.updateActionWithFaults, hfind, hown, SuggestedActionModel.updateParams]
    · simp [Controller.rejectActionWithFaults, hfind, hown]
  · intro h
    unfold Controller.setChannels
    cases platform with
    | none => rfl
    | some p =>
      cases channels with
      | none => rfl
      | some list =>
        simp only
        split
        · rfl
        · cases updateFault with
          | some e => rfl
          | none =>
            simp only
            split
            · rename_i hlen
              cases insertFault with
              | some e => rfl
              | none =>
                simp only [Controller.answerChannels]
                cases selectFault with
                | some e => rfl
                | none =>
                  rcases h with h | ⟨h, _⟩ | h <;> exact absurd rfl h
            · rename_i hlen
              simp only [Controller.answerChannels]
              cases selectFault with
              | some e => rfl
              | none =>
                rcases h with h | ⟨_, l, hl, hne⟩ | h
                · exact absurd rfl h
                · cases hl
                  exfalso
                  apply hlen
                  exact List.length_pos.mpr hne
                · exact absurd rfl h
  · intro p l e hp
    refine ⟨?_, ?_, ?_⟩
    · simp [Controller.setChannels, hp]
    · intro hl
      simp [Controller.setChannels, hp, List.length_pos.mpr hl]
    · intro h
      rcases h with h | h
      · subst h
        simp [Controller.setChannels, hp, Controller.answerChannels]
      · subst h
        by_cases hl : 0 < l.length
        · simp [Controller.setChannels, hp, hl, Controller.answerChannels]
        · simp [Controller.setChannels, hp, hl, Controller.answerChannels]
  · intro e
    rfl
  · intro name d m
    rfl
  · unfold IntegrationController.slackAIChat
    cases userLookup with
    | error e => exact ⟨_, rfl, rfl⟩
    | ok name =>
      simp only
      cases SlackService.sendMessage first with
      | error e => exact ⟨_, rfl, rfl⟩
      | ok sent =>
        simp only
        cases message with
        | none => exact ⟨_, rfl, rfl⟩
        | some m =>
          simp only
          cases SlackService.sendMessage second with
          | error e => exact ⟨_, rfl, rfl⟩
          | ok aiReply => exact ⟨_, rfl, rfl⟩

/-- C27, amended, at the scenario: a refused connection in `executeAction`; a failed
INSERT in `setChannels`, which has already deactivated the old channels; a failed UPDATE in
`updateAction` and in `rejectAction` of the owner. -/
theorem C27_failures_passed_on_example :
    Controller.executeAction exStore 2000 1 1
      (.failed (some "ECONNREFUSED") "connect ECONNREFUSED 127.0.0.1:8000" none) none none =
      ⟨.next "connect ECONNREFUSED 127.0.0.1:8000", exStore,
       [AgentCall.executeAction 1 (.str "jira.createIssue")
         (.obj [("summary", .str "Login bug")])]⟩ ∧
    Controller.setChannels exRegistry 2000 1 (some "slack") (some [exChannel]) none
      (some "ER_LOCK_DEADLOCK") none =
      ⟨.next "ER_LOCK_DEADLOCK", MonitoredChannelModel.deactivateAll exRegistry 1 "slack"⟩ ∧
    Controller.updateActionWithFaults exStore 1 1 (some (.obj [])) none
      (some "ER_LOCK_DEADLOCK") = ⟨.next "ER_LOCK_DEADLOCK", exStore, []⟩ ∧
    Controller.rejectActionWithFaults exStore 2000 1 1 none (some "ER_LOCK_DEADLOCK") =
      ⟨.next "ER_LOCK_DEADLOCK", exStore, []⟩ :=
  ⟨by decide,
   ((C27_failures_passed_on exStore exRegistry 2000 1 1 (some (.obj [])) (.ok .null)
     (some "slack") (some [exChannel]) none none none none (.ok none) none
     (.ok none) (.ok none) (.ok none) (.ok .null) (fun s => s)).2.2.2.2.2.2.2.1
     "slack" [exChannel] "ER_LOCK_DEADLOCK" (by decide)).2.1 (by decide),
   ((C27_failures_passed_on exStore exRegistry 2000 1 1 (some (.obj [])) (.ok .null)
     (some "slack") (some [exChannel]) none none none none (.ok none) none
     (.ok none) (.ok none) (.ok none) (.ok .null) (fun s => s)).2.2.2.2.2.1
     (toAction exRow) "ER_LOCK_DEADLOCK" (by decide) (by decide)).2.1 _ rfl,
   ((C27_failures_passed_on exStore exRegistry 2000 1 1 (some (.obj [])) (.ok .null)
     (some "slack") (some [exChannel]) none none none none (.ok none) none
     (.ok none) (.ok none) (.ok none) (.ok .null) (fun s => s)).2.2.2.2.2.1
     (toAction exRow) "ER_LOCK_DEADLOCK" (by decide) (by decide)).2.2⟩

/-- C28: `removeChannel` does not depend on the caller. For any two callers and any id
the outcomes are equal: the reply is 200 with `success: true`, the row with that id is the
same row with its active flag cleared, and every other row and the AUTO_INCREMENT counter
are unchanged. -/
theorem C28_removeChannel_ignores_caller (reg : Registry) (caller other id : Nat) :
    Controller.removeChannel reg caller id none = Controller.removeChannel reg other id none ∧
    (Controller.removeChannel reg caller id none).reply =
      .json 200 [("success", .bool true), ("message", .str "Channel removed from monitoring")] ∧
    (Controller.removeChannel reg caller id none).reply.success = true ∧
    (Controller.removeChannel reg caller id none).registry.nextId = reg.nextId ∧
    List.Forall₂ (fun r r' =>
        (r.id = id → r' = { r with is_active := false }) ∧ (r.id ≠ id → r' = r))
      reg.rows (Controller.removeChannel reg caller id none).registry.rows := by
  refine ⟨rfl, rfl, rfl, rfl, ?_⟩
  unfold Controller.removeChannel MonitoredChannelModel.deleteById
  apply forall₂_map_self
  intro r _
  by_cases h : r.id = id
  · rw [if_pos h]; exact ⟨fun _ => rfl, fun h2 => absurd h h2⟩
  · rw [if_neg h]; exact ⟨fun h2 => absurd h2 h, fun _ => rfl⟩

/-- C28 at the registry whose one channel belongs to user 1: user 2 deactivates it, with
the same outcome as user 1. -/
theorem C28_removeChannel_ignores_caller_example :
    exRegistry.rows.map (fun r => (r.id, r.user_id, r.is_active)) = [(1, 1, true)] ∧
    (Controller.removeChannel exRegistry 2 1 none).registry.rows.map
      (fun r => (r.id, r.user_id, r.is_active)) = [(1, 1, false)] ∧
    Controller.removeChannel exRegistry 2 1 none = Controller.removeChannel exRegistry 1 1 none :=
  ⟨by decide, by decide, (C28_removeChannel_ignores_caller exRegistry 2 1 1).1⟩

/-- C29: the writes of `processEvent` are not all-or-nothing. When the reply carries two
suggestions and the second INSERT fails, `processEvent` returns the empty sequence and the
row of the first suggestion is in the table. -/
theorem C29_partial_writes_remain :
    (processEvent Store.empty 1000 1 "slack" "C1"
      (some (utf16 "Can someone file a ticket for the login bug?")) none twoSuggestions
      (fun k => k == 0)).result = some [] ∧
    (processEvent Store.empty 1000 1 "slack" "C1"
      (some (utf16 "Can someone file a ticket for the login bug?")) none twoSuggestions
      (fun k => k == 0)).store.rows.map (fun r => (r.id, r.user_id, r.suggested_tool)) =
      [(1, 1, .str "jira.createIssue")] := by
  decide

/-- C30: for a non-empty platform `p`, the table after `replaceAll(u, p, channels)` is
the old rows in place followed by new rows; an old row of another user, or of `u` on
another platform, is unchanged, every old row keeps its id, name, owner and platform, and
every new row belongs to `u` and `p`, whatever platform the entries of `channels` carry. -/
theorem C30_replaceAll_frame (reg : Registry) (now : Int) (u : Nat) (p : String)
    (channels : List ChannelSpec) (hp : p ≠ "") :
    ∃ kept added,
      (MonitoredChannelModel.replaceAll reg now u p channels).rows = kept ++ added ∧
      List.Forall₂ (fun r r' =>
          (r.user_id ≠ u ∨ r.platform ≠ p → r' = r) ∧
          r'.id = r.id ∧ r'.channel_name = r.channel_name ∧ r'.user_id = r.user_id ∧
          r'.platform = r.platform)
        reg.rows kept ∧
      ∀ r ∈ added, r.user_id = u ∧ r.platform = p := by
  refine ⟨_, _, replaceAll_rows reg now u p channels, ?_, ?_⟩
  · unfold MonitoredChannelModel.deactivateAll
    apply forall₂_map_self
    intro r _
    by_cases h : r.user_id = u ∧ r.platform = p
    · rw [if_pos h]
      refine ⟨?_, rfl, rfl, rfl, rfl⟩
      intro h2
      rcases h2 with h2 | h2
      · exact absurd h.1 h2
      · exact absurd h.2 h2
    · rw [if_neg h]
      exact ⟨fun _ => rfl, rfl, rfl, rfl, rfl⟩
  · intro r hr
    obtain ⟨h1, _, h3⟩ := newRows_of_platform now u p hp channels reg.nextId r hr
    exact ⟨h1, h3⟩

/-- C30 at the registry with `C1` under `slack` and under `asana`: `replaceAll(1,
'slack', [C9])` with an entry that names `asana` deactivates the Slack row, leaves the Asana
row as it was and adds `C9` under `slack`. -/
theorem C30_replaceAll_frame_witness :
    ("slack" : String) ≠ "" ∧
    (MonitoredChannelModel.replaceAll twoPlatformRegistry 3000 1 "slack"
      [⟨some "asana", "C9", some "design"⟩]).rows.map
      (fun r => (r.id, r.platform, r.channel_id, r.is_active)) =
      [(1, "slack", "C1", false), (2, "asana", "C1", true), (3, "slack", "C9", true)] ∧
    ∃ kept added,
      (MonitoredChannelModel.replaceAll twoPlatformRegistry 3000 1 "slack"
        [⟨some "asana", "C9", some "design"⟩]).rows = kept ++ added ∧
      List.Forall₂ (fun r r' =>
          (r.user_id ≠ 1 ∨ r.platform ≠ "slack" → r' = r) ∧
          r'.id = r.id ∧ r'.channel_name = r.channel_name ∧ r'.user_id = r.user_id ∧
          r'.platform = r.platform)
        twoPlatformRegistry.rows kept ∧
      ∀ r ∈ added, r.user_id = 1 ∧ r.platform = "slack" :=
  ⟨by decide, by decide,
   C30_replaceAll_frame twoPlatformRegistry 3000 1 "slack" [⟨some "asana", "C9", some "design"⟩]
     (by decide)⟩

end Gaprio
